import Mathlib

/-!
Verification development for the `yt-video-summarizer` repository
(`youtube_script_generator` package).

The Python source is shallowly embedded: Python `int` becomes `Int`,
Python `float` arithmetic is modelled as exact rational arithmetic over `ℚ`,
`None`-able values become `Option`, and code that can raise an exception is
modelled with `Except`.  Python's builtin `round(x, 2)` is modelled as exact
decimal rounding half-to-even (the tie-breaking rule of Python's `round`),
and Python `int(x)` on a float as truncation toward zero.  Wall-clock
dependence (`datetime.now().year`) is made explicit as a `year : Int`
parameter.  External collaborators (the search subprocess, the download and
transcription services, and every LLM call) are modelled as explicit inputs.
-/

namespace YtSummarizer

/-- Model of Python `int(s)` restricted to optionally-signed decimal digit
strings (the shapes that occur in the repository: `YYYYMMDD` dates and
`MM:SS` timestamp components); any other string fails like `int` raising
`ValueError`. -/
def pyInt? (s : String) : Option Int :=
  match s.toList with
  | '-' :: rest =>
      if rest ≠ [] ∧ rest.all Char.isDigit then
        some (-(rest.foldl (fun acc c => acc * 10 + ((c.toNat : Int) - 48)) 0))
      else none
  | '+' :: rest =>
      if rest ≠ [] ∧ rest.all Char.isDigit then
        some (rest.foldl (fun acc c => acc * 10 + ((c.toNat : Int) - 48)) 0)
      else none
  | cs =>
      if cs ≠ [] ∧ cs.all Char.isDigit then
        some (cs.foldl (fun acc c => acc * 10 + ((c.toNat : Int) - 48)) 0)
      else none

/-- Splitting engine behind `pySplit`: the fuel is an upper bound on the
remaining characters, so the recursion is structural and the function
evaluates by reduction (core `String.splitOn` recurses on byte positions
and does not reduce). -/
def pySplitFuel (sep : List Char) : Nat → List Char → List Char → List (List Char)
  | 0, cs, acc => [acc.reverse ++ cs]
  | _ + 1, [], acc => [acc.reverse]
  | fuel + 1, c :: rest, acc =>
      if sep.isPrefixOf (c :: rest) then
        acc.reverse :: pySplitFuel sep fuel (List.drop sep.length (c :: rest)) []
      else
        pySplitFuel sep fuel rest (c :: acc)

/-- Model of Python `s.split(sep)` for a non-empty separator: leftmost
non-overlapping matches (which is also the semantics of `str.split` and of
core `String.splitOn`). -/
def pySplit (sep s : String) : List String :=
  (pySplitFuel sep.toList (s.toList.length + 1) s.toList []).map fun cs => ⟨cs⟩

/-- Model of Python `s.startswith(pre)`. -/
def pyStartsWith (s pre : String) : Bool := pre.toList.isPrefixOf s.toList

/-- Model of Python `s.endswith(suf)`. -/
def pyEndsWith (s suf : String) : Bool := suf.toList.isSuffixOf s.toList

/-- Strip characters satisfying `p` from both ends (the engine behind
Python `str.strip`). -/
def pyStripP (p : Char → Bool) (s : String) : String :=
  ⟨((s.toList.dropWhile p).reverse.dropWhile p).reverse⟩

/-- Model of Python `s.strip()` (ASCII whitespace). -/
def pyStrip (s : String) : String := pyStripP Char.isWhitespace s

/-- Model of Python `s.replace(old, new)` for a non-empty `old`:
split on `old` and re-join with `new`. -/
def pyReplace (s old new : String) : String :=
  String.intercalate new (pySplit old s)

/-- Kernel-computable floor of a rational (`⌊q⌋` itself goes through the
`FloorRing` structure and does not reduce definitionally). -/
def ratFloor (q : ℚ) : Int := q.num / (q.den : Int)

theorem ratFloor_eq (q : ℚ) : ratFloor q = ⌊q⌋ := Rat.floor_def.symm

/-- Computable `min` on ℚ, modelling Python `min(a, b)`. -/
def pyMin (a b : ℚ) : ℚ := if a ≤ b then a else b

theorem pyMin_eq (a b : ℚ) : pyMin a b = min a b := (min_def a b).symm

/-- Computable `max` on ℚ, modelling Python `max(a, b)`. -/
def pyMax (a b : ℚ) : ℚ := if b ≤ a then a else b

theorem pyMax_eq (a b : ℚ) : pyMax a b = max a b := by
  unfold pyMax
  split
  · exact (max_eq_left (by assumption)).symm
  · exact (max_eq_right (le_of_not_le (by assumption))).symm

/-- Computable absolute value on ℚ, modelling Python `abs`. -/
def pyAbs (a : ℚ) : ℚ := if a < 0 then -a else a

theorem pyAbs_eq (a : ℚ) : pyAbs a = |a| := by
  unfold pyAbs
  split
  · exact (abs_of_neg (by assumption)).symm
  · exact (abs_of_nonneg (le_of_not_lt (by assumption))).symm

/-- Round a rational to an integer, breaking ties toward the even integer:
the behaviour of Python's builtin `round` (modelled over exact rationals). -/
def roundHalfEven (q : ℚ) : Int :=
  if q - (ratFloor q : ℚ) < 1/2 then ratFloor q
  else if 1/2 < q - (ratFloor q : ℚ) then ratFloor q + 1
  else if ratFloor q % 2 = 0 then ratFloor q else ratFloor q + 1

/-- Model of Python `round(x, 2)`: decimal rounding to two places,
ties to even. -/
def round2 (q : ℚ) : ℚ := (roundHalfEven (q * 100) : ℚ) / 100

/-- Model of Python `int(x)` on a float: truncation toward zero. -/
def truncInt (q : ℚ) : Int := if 0 ≤ q then ratFloor q else -(ratFloor (-q))

theorem ratFloor_mono {a b : ℚ} (h : a ≤ b) : ratFloor a ≤ ratFloor b := by
  rw [ratFloor_eq, ratFloor_eq]
  exact Int.floor_mono h

theorem le_roundHalfEven (q : ℚ) : ratFloor q ≤ roundHalfEven q := by
  unfold roundHalfEven
  split
  · exact le_refl _
  · split
    · omega
    · split <;> omega

theorem roundHalfEven_le (q : ℚ) : roundHalfEven q ≤ ratFloor q + 1 := by
  unfold roundHalfEven
  split
  · omega
  · split
    · omega
    · split <;> omega

theorem roundHalfEven_of_lt {q : ℚ} (h : q - (ratFloor q : ℚ) < 1/2) :
    roundHalfEven q = ratFloor q := by
  unfold roundHalfEven
  rw [if_pos h]

theorem roundHalfEven_of_gt {q : ℚ} (h : 1/2 < q - (ratFloor q : ℚ)) :
    roundHalfEven q = ratFloor q + 1 := by
  unfold roundHalfEven
  rw [if_neg (by linarith), if_pos h]

theorem roundHalfEven_mono {a b : ℚ} (h : a ≤ b) :
    roundHalfEven a ≤ roundHalfEven b := by
  rcases lt_or_eq_of_le (ratFloor_mono h) with hf | hf
  · calc roundHalfEven a ≤ ratFloor a + 1 := roundHalfEven_le a
      _ ≤ ratFloor b := by omega
      _ ≤ roundHalfEven b := le_roundHalfEven b
  · have hr : a - (ratFloor a : ℚ) ≤ b - (ratFloor b : ℚ) := by
      rw [hf]; linarith
    by_cases ha : a - (ratFloor a : ℚ) < 1/2
    · rw [roundHalfEven_of_lt ha, hf]
      exact le_roundHalfEven b
    · by_cases ha2 : 1/2 < a - (ratFloor a : ℚ)
      · rw [roundHalfEven_of_gt ha2, roundHalfEven_of_gt (lt_of_lt_of_le ha2 hr), hf]
      · have haeq : a - (ratFloor a : ℚ) = 1/2 :=
          le_antisymm (le_of_not_lt ha2) (le_of_not_lt ha)
        rcases lt_or_eq_of_le hr with hb | hb
        · have hbgt : 1/2 < b - (ratFloor b : ℚ) := by rw [← haeq]; exact hb
          rw [roundHalfEven_of_gt hbgt]
          calc roundHalfEven a ≤ ratFloor a + 1 := roundHalfEven_le a
            _ = ratFloor b + 1 := by omega
        · have : a = b := by
            have h1 : a = (ratFloor a : ℚ) + (a - (ratFloor a : ℚ)) := by ring
            have h2 : b = (ratFloor b : ℚ) + (b - (ratFloor b : ℚ)) := by ring
            rw [h1, h2, ← hb, hf]
          rw [this]

theorem round2_mono {a b : ℚ} (h : a ≤ b) : round2 a ≤ round2 b := by
  unfold round2
  have h100 : a * 100 ≤ b * 100 := by linarith
  have := roundHalfEven_mono h100
  have hc : ((roundHalfEven (a * 100) : ℚ)) ≤ ((roundHalfEven (b * 100) : ℚ)) := by
    exact_mod_cast this
  linarith

theorem ratFloor_intCast (n : Int) : ratFloor ((n : ℚ)) = n := by
  rw [ratFloor_eq]
  exact Int.floor_intCast n

/-- Evaluation rule for `round2` when the scaled argument is an integer
(the only case the concrete samples below need). -/
theorem round2_of_eq_intCast {q : ℚ} {n : Int} (h : q * 100 = (n : ℚ)) :
    round2 q = (n : ℚ) / 100 := by
  unfold round2
  rw [h, roundHalfEven_of_lt (by rw [ratFloor_intCast]; norm_num), ratFloor_intCast]

/-! ## Video Record (src/youtube_script_generator/models.py, `YouTubeVideo`)

Embeds the `YouTubeVideo` dataclass.  `duration_seconds` and `view_count`
are Python ints; `like_count` and `duration_preference` are optional. -/

structure YouTubeVideo where
  video_id : String
  title : String
  url : String
  duration_seconds : Int
  view_count : Int
  upload_date : String
  channel : String
  like_count : Option Int := none
  duration_preference : Option Int := none
  deriving Repr, DecidableEq

namespace YouTubeVideo

/-- `duration_minutes` property: `duration_seconds / 60` (true division). -/
def duration_minutes (v : YouTubeVideo) : ℚ := (v.duration_seconds : ℚ) / 60

/-- View factor: `min(view_count / 100_000, 1.0)`. -/
def viewScore (v : YouTubeVideo) : ℚ := pyMin ((v.view_count : ℚ) / 100000) 1

/-- Target duration: `duration_preference or 15` — Python `or` falls back on
`None` and on the falsy value `0`. -/
def targetDuration (v : YouTubeVideo) : ℚ :=
  match v.duration_preference with
  | none => 15
  | some p => if p = 0 then 15 else (p : ℚ)

/-- Duration-proximity factor: the three-tier step function on
`abs(duration_minutes - target)`. -/
def durationScore (v : YouTubeVideo) : ℚ :=
  if pyAbs (v.duration_minutes - v.targetDuration) ≤ 3 then 1
  else if pyAbs (v.duration_minutes - v.targetDuration) ≤ 6 then 7/10
  else 2/5

/-- Model of `int(self.upload_date[:4])` with the `ValueError` fallback
mapped to `none`. -/
def uploadYear? (v : YouTubeVideo) : Option Int := pyInt? (v.upload_date.take 4)

/-- Recency factor: `max(1.0 - years_old * 0.2, 0.3)` where
`years_old = current_year - upload_year`; `0.5` when the date cannot be
parsed.  The current year (`datetime.now().year` in the source) is an
explicit parameter. -/
def recencyScore (year : Int) (v : YouTubeVideo) : ℚ :=
  match v.uploadYear? with
  | some uy => pyMax (1 - ((year - uy : Int) : ℚ) * (1/5)) (3/10)
  | none => 1/2

/-- Completeness factor: `1.0 if like_count is not None else 0.8`. -/
def completenessScore (v : YouTubeVideo) : ℚ :=
  match v.like_count with
  | some _ => 1
  | none => 4/5

/-- The `quality_score` property: weighted sum of the four factors
(40/20/20/20), scaled to 0–5 and rounded to two decimals.  `year` stands
for `datetime.now().year`. -/
def quality_score (year : Int) (v : YouTubeVideo) : ℚ :=
  round2 ((v.viewScore * (2/5) + v.durationScore * (1/5)
    + recencyScore year v * (1/5) + v.completenessScore * (1/5)) * 5)

end YouTubeVideo

/-- Model of the Python substring test `needle in hay` (for a non-empty
needle): `str.split` produces more than one piece exactly when the needle
occurs. -/
def pyIn (needle hay : String) : Bool := (pySplit needle hay).length > 1

/-- Model of Python `str.isdigit` restricted to ASCII digit strings. -/
def pyIsDigit (s : String) : Bool := !s.isEmpty && s.toList.all Char.isDigit

/-! ## Searcher (src/youtube_script_generator/youtube_searcher.py)

The yt-dlp subprocess emits one JSON object per line; `json.loads` and the
subprocess are external, so `search` takes the decoded lines as input: a
`none` entry stands for a line that failed to decode (skipped by the
`except` clause), and a `RawVideoData` holds the fields read with
`data.get`, `none` meaning the key is absent. -/

structure RawVideoData where
  id : Option String := none
  title : Option String := none
  webpage_url : Option String := none
  url : Option String := none
  duration : Option Int := none
  view_count : Option Int := none
  upload_date : Option String := none
  uploader : Option String := none
  channel : Option String := none
  like_count : Option Int := none
  deriving Repr, DecidableEq

/-- `_parse_search_results`: skip undecodable lines, skip entries whose
`duration` is missing or falsy (`0`), filter by the duration window in
seconds, and build `YouTubeVideo` records with the `data.get` defaults. -/
def parse_search_results (entries : List (Option RawVideoData))
    (min_duration max_duration : Int) : List YouTubeVideo :=
  entries.filterMap fun e =>
    match e with
    | none => none
    | some d =>
      match d.duration with
      | none => none
      | some dur =>
        if dur = 0 then none
        else if dur < min_duration * 60 ∨ dur > max_duration * 60 then none
        else some
          { video_id := d.id.getD ""
            title := d.title.getD "Unknown"
            url := d.webpage_url.getD (d.url.getD "")
            duration_seconds := dur
            view_count := d.view_count.getD 0
            upload_date := d.upload_date.getD ""
            channel := d.uploader.getD (d.channel.getD "Unknown")
            like_count := d.like_count
            duration_preference := none }

/-- `YouTubeSearcher.search` on already-decoded subprocess output: raise
`YouTubeSearchError` when nothing survives parsing, attach the caller's
duration preference, sort descending by `quality_score` (Python's stable
`list.sort` with `reverse=True`, modelled by stable `mergeSort` with the
flipped comparison), and return the top `max_results`. -/
def search (max_results : Nat) (year : Int) (entries : List (Option RawVideoData))
    (duration_preference : Option Int) (min_duration max_duration : Int) :
    Except Unit (List YouTubeVideo) :=
  let videos := parse_search_results entries min_duration max_duration
  if videos.isEmpty then .error ()
  else
    let vids := videos.map fun v => { v with duration_preference := duration_preference }
    let sorted := vids.mergeSort fun a b =>
      decide (YouTubeVideo.quality_score year b ≤ YouTubeVideo.quality_score year a)
    .ok (sorted.take max_results)

/-! ## Transcript Record and Batch Processor
(src/youtube_script_generator/models.py `VideoTranscript`,
src/youtube_script_generator/batch_processor.py) -/

/-- `VideoTranscript` dataclass.  `word_timestamps` entries are opaque
dictionaries (always empty in this pipeline); they are modelled as opaque
strings. -/
structure VideoTranscript where
  video : YouTubeVideo
  transcript_text : String
  word_timestamps : List String := []
  language : String
  transcription_time_seconds : ℚ
  deriving Repr, DecidableEq

/-- The loop body of `process_videos`: each element of `results` is the
outcome of downloading and transcribing one video (`download_and_extract_audio`
followed by `transcribe_audio_file`, both external); a failure of either is
caught by the `except` clause and the video is skipped. -/
def processVideosLoop : List (Except Unit VideoTranscript) → List VideoTranscript →
    List VideoTranscript
  | [], acc => acc
  | .ok t :: rest, acc => processVideosLoop rest (acc ++ [t])
  | .error _ :: rest, acc => processVideosLoop rest acc

/-- `BatchProcessor.process_videos`: attempt every video, keep the
successes in order, and raise `BatchProcessingError` when the collected
list is empty. -/
def process_videos (results : List (Except Unit VideoTranscript)) :
    Except Unit (List VideoTranscript) :=
  let transcripts := processVideosLoop results []
  if transcripts.isEmpty then .error () else .ok transcripts

/-! ## Video-Analysis Record and Pattern Analyzer
(src/youtube_script_generator/models.py `VideoAnalysis`,
src/youtube_script_generator/pattern_analyzer.py)

JSON values coming back from the LLM are modelled at the decoded level:
`json.loads` is external, so `analyze` receives the decode outcome as an
input.  A CTA timestamp may be a JSON number or a string, so it is a sum;
the `end` key of a section object may hold a string or a non-string
value. -/

/-- A CTA `timestamp` value: a JSON number (Python `int`) or a string. -/
inductive PyTimestamp where
  | int (n : Int)
  | str (s : String)
  deriving Repr, DecidableEq

/-- A CTA descriptor dict; `text`/`type`/`timestamp` carry the
`cta.get` defaults. -/
structure Cta where
  text : String := ""
  type : String := "unknown"
  timestamp : PyTimestamp := .int 0
  deriving Repr, DecidableEq

/-- A JSON value of which the code only asks whether it is a string. -/
inductive JStr where
  | str (s : String)
  | notStr
  deriving Repr, DecidableEq

/-- A section descriptor dict as decoded from the LLM response; `endTs`
models the optional `"end"` key. -/
structure SectionJ where
  endTs : Option JStr := none
  deriving Repr, DecidableEq

/-- A technique descriptor (`{name, description}`). -/
structure Technique where
  name : String
  description : String
  deriving Repr, DecidableEq

/-- `VideoAnalysis` dataclass.  `effectiveness_score` is the field set by
`__post_init__` from `video.quality_score` at construction time. -/
structure VideoAnalysis where
  video : YouTubeVideo
  hook_start : Int
  hook_end : Int
  hook_text : String
  hook_type : String
  hook_effectiveness : String
  intro_end : Int
  sections : List SectionJ
  conclusion_start : Int
  ctas : List Cta
  technical_terms : List String
  common_phrases : List String
  transition_phrases : List String
  techniques : List Technique
  title_keywords : List String
  estimated_tags : List String
  effectiveness_score : ℚ
  raw_analysis : String
  deriving Repr, DecidableEq

/-- The decoded JSON object of a pattern-analysis LLM response; `none`
means the key is absent (`data.get` then takes its default). -/
structure GeminiJson where
  opening_hook : Option String := none
  hook_type : Option String := none
  hook_effectiveness : Option String := none
  sections : Option (List SectionJ) := none
  ctas : Option (List Cta) := none
  technical_terms : Option (List String) := none
  vocabulary_patterns : Option (List String) := none
  transition_phrases : Option (List String) := none
  persuasion_techniques : Option (List String) := none
  seo_keywords : Option (List String) := none
  deriving Repr, DecidableEq

/-- Derivation of `hook_end` from the first section's `"end"` value:
`MM:SS` strings are parsed (a bad component raises `ValueError`), plain
digit strings are taken as seconds, a non-string value raises `TypeError`
at the `":" in end_str` test, anything else keeps the default 30. -/
def hookEndOfSections (sections : List SectionJ) : Except Unit Int :=
  match sections with
  | [] => .ok 30
  | s :: _ =>
    match s.endTs with
    | none => .ok 30
    | some .notStr => .error ()
    | some (.str e) =>
      if pyIn ":" e then
        match pyInt? ((pySplit ":" e).getD 0 ""), pyInt? ((pySplit ":" e).getD 1 "") with
        | some a, some b => .ok (a * 60 + b)
        | _, _ => .error ()
      else if pyIsDigit e then .ok ((pyInt? e).getD 0)
      else .ok 30

/-- The fallback `VideoAnalysis` built in the two `except` clauses of the
analyzer (identical apart from the `raw_analysis` payload). -/
def fallbackAnalysis (year : Int) (video : YouTubeVideo) (raw : String) : VideoAnalysis :=
  { video := video
    hook_start := 0
    hook_end := 30
    hook_text := ""
    hook_type := "unknown"
    hook_effectiveness := "unknown"
    intro_end := 30
    sections := []
    conclusion_start := video.duration_seconds - 60
    ctas := []
    technical_terms := []
    common_phrases := []
    transition_phrases := []
    techniques := []
    title_keywords := []
    estimated_tags := []
    effectiveness_score := YouTubeVideo.quality_score year video
    raw_analysis := raw }

/-- `_parse_analysis_response` on the decoded response: a JSON decode
failure is caught locally (returning the fallback with the raw response
text); a `ValueError`/`TypeError` from the hook-end extraction propagates
to the caller as `.error`. -/
def parse_analysis_response (year : Int) (t : VideoTranscript) (response_text : String)
    (decoded : Except Unit GeminiJson) : Except Unit VideoAnalysis :=
  match decoded with
  | .error _ => .ok (fallbackAnalysis year t.video response_text)
  | .ok d =>
    match hookEndOfSections (d.sections.getD []) with
    | .error e => .error e
    | .ok hook_end =>
      .ok { video := t.video
            hook_start := 0
            hook_end := hook_end
            hook_text := d.opening_hook.getD ""
            hook_type := d.hook_type.getD "unknown"
            hook_effectiveness := d.hook_effectiveness.getD "unknown"
            intro_end := hook_end
            sections := d.sections.getD []
            conclusion_start := t.video.duration_seconds - 60
            ctas := d.ctas.getD []
            technical_terms := d.technical_terms.getD []
            common_phrases := d.vocabulary_patterns.getD []
            transition_phrases := d.transition_phrases.getD []
            techniques := (d.persuasion_techniques.getD []).map fun s => ⟨s, ""⟩
            title_keywords := d.seo_keywords.getD []
            estimated_tags := (d.seo_keywords.getD []).take 10
            effectiveness_score := YouTubeVideo.quality_score year t.video
            raw_analysis := response_text }

/-- `PatternAnalyzer.analyze`: the LLM call outcome is the input — `.error`
models the API call raising; on success the response text comes with its
JSON decode outcome.  Every exception is absorbed into the fallback
analysis, so the result type is total. -/
def analyze (year : Int) (t : VideoTranscript)
    (llm : Except Unit (String × Except Unit GeminiJson)) : VideoAnalysis :=
  match llm with
  | .error _ => fallbackAnalysis year t.video ""
  | .ok (text, decoded) =>
    match parse_analysis_response year t text decoded with
    | .error _ => fallbackAnalysis year t.video ""
    | .ok a => a

/-! ## Pattern Synthesizer (src/youtube_script_generator/synthesizer.py)

The exceptions the synthesizer can raise are distinguished because the
claims speak specifically about `ValueError`. -/

/-- The Python exception kinds reachable in the embedded code. -/
inductive PyErr where
  | valueError
  | typeError
  | zeroDivisionError
  deriving Repr, DecidableEq

/-- Decidable equality on `Except`, needed to evaluate the concrete
synthesizer runs below. -/
instance {ε α : Type} [DecidableEq ε] [DecidableEq α] :
    DecidableEq (Except ε α) := fun a b =>
  match a, b with
  | .error e, .error e' =>
    if h : e = e' then isTrue (by rw [h]) else isFalse (by intro hc; cases hc; exact h rfl)
  | .ok v, .ok v' =>
    if h : v = v' then isTrue (by rw [h]) else isFalse (by intro hc; cases hc; exact h rfl)
  | .error _, .ok _ => isFalse (by intro hc; cases hc)
  | .ok _, .error _ => isFalse (by intro hc; cases hc)

/-- Model of `collections.Counter` update `counter[k] += w`: an association
list in insertion order. -/
def counterAdd : List (String × Int) → String → Int → List (String × Int)
  | [], k, w => [(k, w)]
  | (k', n) :: rest, k, w =>
      if k' = k then (k', n + w) :: rest else (k', n) :: counterAdd rest k w

/-- Model of `Counter.most_common(n)`: stable sort by count descending
(ties keep insertion order), truncated to `n`. -/
def mostCommon (c : List (String × Int)) (n : Nat) : List (String × Int) :=
  (c.mergeSort fun a b => decide (b.2 ≤ a.2)).take n

/-- A `top_hooks` entry. -/
structure HookOut where
  text : String
  type : String
  effectiveness : String
  weighted_score : ℚ
  duration_seconds : Int
  video_title : String
  deriving Repr, DecidableEq

/-- `_extract_top_hooks`: skip empty hook texts, weight by
`effectiveness_score`, stable-sort descending, keep the top `top_n`. -/
def extract_top_hooks (analyses : List VideoAnalysis) (top_n : Nat) : List HookOut :=
  let weighted := analyses.filterMap fun a =>
    if a.hook_text = "" then none
    else some
      { text := a.hook_text.take 200
        type := a.hook_type
        effectiveness := a.hook_effectiveness
        weighted_score := a.effectiveness_score
        duration_seconds := a.hook_end - a.hook_start
        video_title := a.video.title }
  (weighted.mergeSort fun x y => decide (y.weighted_score ≤ x.weighted_score)).take top_n

/-- The `weighted_avg` helper: `0.0` on an empty value list; `zip` with
`strict=True` raises `ValueError` on a length mismatch; the division
raises `ZeroDivisionError` when the weights sum to zero. -/
def weighted_avg (values weights : List ℚ) : Except PyErr ℚ :=
  if values.isEmpty then .ok 0
  else if values.length ≠ weights.length then .error .valueError
  else if weights.sum = 0 then .error .zeroDivisionError
  else .ok ((((values.zip weights).map fun p => p.1 * p.2).sum) / weights.sum)

/-- First element with maximal key among a non-empty candidate list —
the behaviour of Python `max(..., key=...)`, which keeps the earlier
element on ties. -/
def firstArgmax (key : Nat → Nat) : List Nat → Nat
  | [] => 0
  | x :: xs => xs.foldl (fun best y => if key best < key y then y else best) x

/-- De-duplication keeping first occurrences, standing in for iterating
`set(num_sections)` (whose order CPython does not specify; only the
maximal-count property of the result is relied upon). -/
def dedupFirst : List Nat → List Nat
  | [] => []
  | x :: xs => x :: dedupFirst (xs.filter fun y => y ≠ x)
termination_by l => l.length
decreasing_by
  simp only [List.length_cons]
  exact Nat.lt_succ_of_le (List.length_filter_le _ _)

/-- `max(set(num_sections), key=num_sections.count)`. -/
def modeOfCounts (l : List Nat) : Nat := firstArgmax (fun x => l.count x) (dedupFirst l)

/-- The `optimal_structure` dict. -/
structure OptimalStructure where
  hook_duration_avg : ℚ
  intro_end_avg : ℚ
  num_sections_mode : Nat
  conclusion_start_avg : ℚ
  total_videos : Nat
  deriving Repr, DecidableEq

/-- `_calculate_optimal_structure`: note that each filtered value list is
averaged against `weights[:len(values)]` — a prefix of the full
effectiveness-score list, not the scores of the contributing analyses. -/
def calc_optimal_structure (analyses : List VideoAnalysis) :
    Except PyErr OptimalStructure :=
  let hook_durations := analyses.filterMap fun a =>
    if a.hook_end > 0 then some ((a.hook_end - a.hook_start : Int) : ℚ) else none
  let intro_ends := analyses.filterMap fun a =>
    if a.intro_end > 0 then some ((a.intro_end : ℚ)) else none
  let num_sections := analyses.filterMap fun a =>
    if a.sections.isEmpty then none else some a.sections.length
  let conclusion_starts := analyses.filterMap fun a =>
    if a.conclusion_start > 0 then some ((a.conclusion_start : ℚ)) else none
  let weights := analyses.map (·.effectiveness_score)
  let hdE := if hook_durations.isEmpty then Except.ok (15 : ℚ)
    else weighted_avg hook_durations (weights.take hook_durations.length)
  let ieE := if intro_ends.isEmpty then Except.ok (60 : ℚ)
    else weighted_avg intro_ends (weights.take intro_ends.length)
  let csE := if conclusion_starts.isEmpty then Except.ok (0 : ℚ)
    else weighted_avg conclusion_starts (weights.take conclusion_starts.length)
  match hdE, ieE, csE with
  | .error e, _, _ => .error e
  | .ok _, .error e, _ => .error e
  | .ok _, .ok _, .error e => .error e
  | .ok hd, .ok ie, .ok cs =>
    .ok { hook_duration_avg := hd
          intro_end_avg := ie
          num_sections_mode := if num_sections.isEmpty then 3 else modeOfCounts num_sections
          conclusion_start_avg := cs
          total_videos := analyses.length }

/-- The per-key record held in `cta_details`. -/
structure CtaDetail where
  text : String
  type : String
  positions : List ℚ
  deriving Repr, DecidableEq

/-- An `effective_ctas` entry. -/
structure CtaOut where
  text : String
  type : String
  frequency : Int
  avg_position_percent : ℚ
  deriving Repr, DecidableEq

/-- The running state of `_extract_effective_ctas`: the counter and the
details table, both in insertion order. -/
structure CtaState where
  counter : List (String × Int)
  details : List (String × CtaDetail)
  deriving Repr, DecidableEq

/-- `if key not in cta_details: cta_details[key] = {...}`. -/
def detailInit (ds : List (String × CtaDetail)) (k text type : String) :
    List (String × CtaDetail) :=
  if ds.any (fun e => e.1 = k) then ds else ds ++ [(k, ⟨text, type, []⟩)]

/-- Append a position percentage to the details entry of key `k`. -/
def detailPush (ds : List (String × CtaDetail)) (k : String) (p : ℚ) :
    List (String × CtaDetail) :=
  ds.map fun e =>
    if e.1 = k then (e.1, { e.2 with positions := e.2.positions ++ [p] }) else e

/-- One iteration of the CTA loop: build the `type:text` key, bump the
counter, initialize the details entry, normalize the timestamp (a
malformed `MM:SS` string raises `ValueError`), and, when the video has a
positive duration, record the position percent (division of a leftover
string timestamp raises `TypeError`). -/
def ctaStep (dur : Int) (st : CtaState) (c : Cta) : Except PyErr CtaState := do
  let key := c.type ++ ":" ++ c.text
  let counter := counterAdd st.counter key 1
  let details := detailInit st.details key c.text c.type
  let tsv : Sum Int String ←
    match c.timestamp with
    | .int n => Except.ok (Sum.inl n)
    | .str s =>
      if pyIn ":" s then
        match pyInt? ((pySplit ":" s).getD 0 ""), pyInt? ((pySplit ":" s).getD 1 "") with
        | some a, some b => Except.ok (Sum.inl (a * 60 + b))
        | _, _ => Except.error .valueError
      else Except.ok (Sum.inr s)
  if dur > 0 then
    match tsv with
    | .inl n =>
        pure { counter := counter
               details := detailPush details key ((n : ℚ) / (dur : ℚ) * 100) }
    | .inr _ => Except.error .typeError
  else
    pure { counter := counter, details := details }

/-- `_extract_effective_ctas`: run the loop over every CTA of every
analysis, then emit the `most_common(top_n)` keys with their frequency and
mean position.  The details lookup cannot miss (counter keys are always
initialized in the details table); the dummy branch mirrors what a
`KeyError` would hit and is unreachable. -/
def extract_effective_ctas (analyses : List VideoAnalysis) (top_n : Nat) :
    Except PyErr (List CtaOut) := do
  let st ← analyses.foldlM
    (fun st a => a.ctas.foldlM (ctaStep a.video.duration_seconds) st)
    ({ counter := [], details := [] } : CtaState)
  pure ((mostCommon st.counter top_n).map fun kc =>
    match st.details.find? (fun e => e.1 = kc.1) with
    | some e =>
        { text := e.2.text
          type := e.2.type
          frequency := kc.2
          avg_position_percent :=
            if e.2.positions.isEmpty then 0
            else e.2.positions.sum / (e.2.positions.length : ℚ) }
    | none => { text := "", type := "", frequency := kc.2, avg_position_percent := 0 })

/-- A ranked vocabulary entry (`{term/phrase, frequency}`). -/
structure TermFreq where
  term : String
  frequency : Int
  deriving Repr, DecidableEq

/-- The `key_vocabulary` dict. -/
structure KeyVocabulary where
  technical_terms : List TermFreq
  common_phrases : List TermFreq
  transition_phrases : List TermFreq
  deriving Repr, DecidableEq

/-- Accumulate a weighted counter over one string list of each analysis,
the weight being `int(effectiveness_score)`. -/
def weightedCounter (analyses : List VideoAnalysis)
    (field : VideoAnalysis → List String) : List (String × Int) :=
  analyses.foldl
    (fun c a => (field a).foldl
      (fun c t => counterAdd c t (truncInt a.effectiveness_score)) c)
    []

/-- `_aggregate_vocabulary`: weighted counters, top 20/15/10. -/
def aggregate_vocabulary (analyses : List VideoAnalysis) : KeyVocabulary :=
  { technical_terms :=
      (mostCommon (weightedCounter analyses (·.technical_terms)) 20).map fun kc =>
        ⟨kc.1, kc.2⟩
    common_phrases :=
      (mostCommon (weightedCounter analyses (·.common_phrases)) 15).map fun kc =>
        ⟨kc.1, kc.2⟩
    transition_phrases :=
      (mostCommon (weightedCounter analyses (·.transition_phrases)) 10).map fun kc =>
        ⟨kc.1, kc.2⟩ }

/-- A `notable_techniques` entry. -/
structure TechniqueOut where
  name : String
  description : String
  frequency : Int
  deriving Repr, DecidableEq

/-- `_extract_notable_techniques`: only analyses with score `≥ 3.5`
contribute; unweighted counts; first-seen description per name. -/
def extract_notable_techniques (analyses : List VideoAnalysis) (top_n : Nat) :
    List TechniqueOut :=
  let step := fun (st : List (String × Int) × List (String × String)) (a : VideoAnalysis) =>
    if a.effectiveness_score < 7/2 then st
    else a.techniques.foldl
      (fun st t =>
        if t.name = "" then st
        else (counterAdd st.1 t.name 1,
              if st.2.any (fun e => e.1 = t.name) then st.2
              else st.2 ++ [(t.name, t.description)]))
      st
  let acc := analyses.foldl step ([], [])
  (mostCommon acc.1 top_n).map fun kc =>
    { name := kc.1
      description := (((acc.2.find? fun e => e.1 = kc.1).map Prod.snd)).getD ""
      frequency := kc.2 }

/-- A ranked title-keyword entry. -/
structure KwFreq where
  keyword : String
  frequency : Int
  deriving Repr, DecidableEq

/-- A ranked tag entry. -/
structure TagFreq where
  tag : String
  frequency : Int
  deriving Repr, DecidableEq

/-- The `seo_patterns` dict. -/
structure SeoPatterns where
  title_keywords : List KwFreq
  estimated_tags : List TagFreq
  deriving Repr, DecidableEq

/-- `_aggregate_seo_patterns`: weighted counters, top 15/20. -/
def aggregate_seo_patterns (analyses : List VideoAnalysis) : SeoPatterns :=
  { title_keywords :=
      (mostCommon (weightedCounter analyses (·.title_keywords)) 15).map fun kc =>
        ⟨kc.1, kc.2⟩
    estimated_tags :=
      (mostCommon (weightedCounter analyses (·.estimated_tags)) 20).map fun kc =>
        ⟨kc.1, kc.2⟩ }

/-- `PatternSynthesis` dataclass.  The wall-clock `synthesis_timestamp`
field is pure metadata and is not modelled; `markdown_report` is produced
by an external LLM call with a deterministic local fallback — both paths
yield a string, taken here as the `report` input. -/
structure PatternSynthesis where
  topic : String
  num_videos_analyzed : Nat
  top_hooks : List HookOut
  optimal_structure : OptimalStructure
  effective_ctas : List CtaOut
  key_vocabulary : KeyVocabulary
  notable_techniques : List TechniqueOut
  seo_patterns : SeoPatterns
  average_effectiveness : ℚ
  markdown_report : String
  deriving Repr, DecidableEq

/-- `PatternSynthesizer.synthesize`: `ValueError` on an empty input list,
then the six aggregations in source order (those that can raise are
sequenced), then the unweighted mean effectiveness. -/
def synthesize (analyses : List VideoAnalysis) (topic report : String) :
    Except PyErr PatternSynthesis :=
  if analyses.isEmpty then .error .valueError
  else do
    let top_hooks := extract_top_hooks analyses 10
    let optimal_structure ← calc_optimal_structure analyses
    let effective_ctas ← extract_effective_ctas analyses 15
    let key_vocabulary := aggregate_vocabulary analyses
    let notable_techniques := extract_notable_techniques analyses 10
    let seo_patterns := aggregate_seo_patterns analyses
    let avg := (analyses.map (·.effectiveness_score)).sum / (analyses.length : ℚ)
    pure { topic := topic
           num_videos_analyzed := analyses.length
           top_hooks := top_hooks
           optimal_structure := optimal_structure
           effective_ctas := effective_ctas
           key_vocabulary := key_vocabulary
           notable_techniques := notable_techniques
           seo_patterns := seo_patterns
           average_effectiveness := avg
           markdown_report := report }

/-! ## Quality-score lemmas -/

namespace YouTubeVideo

theorem viewScore_nonneg {v : YouTubeVideo} (h : 0 ≤ v.view_count) : 0 ≤ v.viewScore := by
  unfold viewScore
  rw [pyMin_eq]
  apply le_min
  · apply div_nonneg _ (by norm_num)
    exact_mod_cast h
  · norm_num

theorem viewScore_le_one (v : YouTubeVideo) : v.viewScore ≤ 1 := by
  unfold viewScore
  rw [pyMin_eq]
  exact min_le_right _ _

theorem durationScore_lb (v : YouTubeVideo) : 2/5 ≤ v.durationScore := by
  unfold durationScore
  split
  · norm_num
  · split <;> norm_num

theorem durationScore_le_one (v : YouTubeVideo) : v.durationScore ≤ 1 := by
  unfold durationScore
  split
  · norm_num
  · split <;> norm_num

theorem recencyScore_lb (year : Int) (v : YouTubeVideo) : 3/10 ≤ recencyScore year v := by
  unfold recencyScore
  cases v.uploadYear? with
  | none => norm_num
  | some uy =>
    dsimp only
    rw [pyMax_eq]
    exact le_max_right _ _

theorem recencyScore_le_one {year : Int} {v : YouTubeVideo}
    (h : ∀ uy, v.uploadYear? = some uy → uy ≤ year) : recencyScore year v ≤ 1 := by
  unfold recencyScore
  cases hc : v.uploadYear? with
  | none => norm_num
  | some uy =>
    have huy := h uy hc
    dsimp only
    rw [pyMax_eq]
    apply max_le
    · have hge : (0 : ℚ) ≤ ((year - uy : Int) : ℚ) := by
        have : (0 : Int) ≤ year - uy := by omega
        exact_mod_cast this
      linarith
    · norm_num

theorem completenessScore_lb (v : YouTubeVideo) : 4/5 ≤ v.completenessScore := by
  unfold completenessScore
  cases v.like_count <;> norm_num

theorem completenessScore_le_one (v : YouTubeVideo) : v.completenessScore ≤ 1 := by
  unfold completenessScore
  cases v.like_count <;> norm_num

end YouTubeVideo

/-- Evaluation rule for `quality_score` from the values of its four
factors, when the scaled sum is an integer number of hundredths. -/
theorem quality_score_eval {year : Int} {v : YouTubeVideo} {a b c d : ℚ} {n : Int}
    (hv : v.viewScore = a) (hd : v.durationScore = b)
    (hr : YouTubeVideo.recencyScore year v = c) (hc : v.completenessScore = d)
    (hn : (a * (2/5) + b * (1/5) + c * (1/5) + d * (1/5)) * 5 * 100 = (n : ℚ)) :
    YouTubeVideo.quality_score year v = (n : ℚ) / 100 := by
  unfold YouTubeVideo.quality_score
  rw [hv, hd, hr, hc]
  exact round2_of_eq_intCast hn

/-- C3 counterexample: `quality_score` reads the current year
(`datetime.now().year`), so the very same stored fields evaluate to
different scores in different years — refuting the claim that the score
has no dependence on ambient state such as the current date.  The sample
video was uploaded in 2020; evaluated in 2020 the recency factor is 1.0,
evaluated in 2026 it is 0.3. -/
def sampleVideoA : YouTubeVideo :=
  { video_id := "a", title := "sample", url := "https://example.test/a"
    duration_seconds := 900, view_count := 0, upload_date := "20200101"
    channel := "chan" }

/-- C3 (counterexample): the claim says two evaluations on identical field
values return the identical score with no dependence on the current date;
but evaluating the same record under current year 2020 gives 2.8 while
under 2026 it gives 2.1. -/
theorem c3_counterexample_current_year_dependence :
    YouTubeVideo.quality_score 2020 sampleVideoA = 14/5 ∧
    YouTubeVideo.quality_score 2026 sampleVideoA = 21/10 ∧
    YouTubeVideo.quality_score 2020 sampleVideoA ≠
      YouTubeVideo.quality_score 2026 sampleVideoA := by
  have hv : sampleVideoA.viewScore = 0 := by
    norm_num [YouTubeVideo.viewScore, pyMin, sampleVideoA]
  have hd : sampleVideoA.durationScore = 1 := by
    norm_num [YouTubeVideo.durationScore, pyAbs, YouTubeVideo.duration_minutes,
      YouTubeVideo.targetDuration, sampleVideoA]
  have hc : sampleVideoA.completenessScore = 4/5 := by
    norm_num [YouTubeVideo.completenessScore, sampleVideoA]
  have hy : sampleVideoA.uploadYear? = some 2020 := by decide
  have hr20 : YouTubeVideo.recencyScore 2020 sampleVideoA = 1 := by
    norm_num [YouTubeVideo.recencyScore, hy, pyMax]
  have hr26 : YouTubeVideo.recencyScore 2026 sampleVideoA = 3/10 := by
    norm_num [YouTubeVideo.recencyScore, hy, pyMax]
  have e20 : YouTubeVideo.quality_score 2020 sampleVideoA = ((280 : Int) : ℚ) / 100 :=
    quality_score_eval hv hd hr20 hc (by push_cast; norm_num)
  have e26 : YouTubeVideo.quality_score 2026 sampleVideoA = ((210 : Int) : ℚ) / 100 :=
    quality_score_eval hv hd hr26 hc (by push_cast; norm_num)
  refine ⟨by rw [e20]; norm_num, by rw [e26]; norm_num, ?_⟩
  rw [e20, e26]
  norm_num

/-- C3 (amended): `quality_score` is a deterministic pure function of the
stored metric fields (`duration_seconds`, `view_count`, `upload_date`,
`like_count`, `duration_preference`) together with the current year: two
evaluations agreeing on those inputs agree, independently of the identity
fields — but the score does depend on the current date. -/
theorem c3_amended_quality_score_deterministic :
    ∀ (year : Int) (v w : YouTubeVideo),
      v.duration_seconds = w.duration_seconds →
      v.view_count = w.view_count →
      v.upload_date = w.upload_date →
      v.like_count = w.like_count →
      v.duration_preference = w.duration_preference →
      YouTubeVideo.quality_score year v = YouTubeVideo.quality_score year w := by
  intro year v w h1 h2 h3 h4 h5
  have hv : v.viewScore = w.viewScore := by
    unfold YouTubeVideo.viewScore
    rw [h2]
  have hd : v.durationScore = w.durationScore := by
    unfold YouTubeVideo.durationScore YouTubeVideo.duration_minutes
      YouTubeVideo.targetDuration
    rw [h1, h5]
  have hr : YouTubeVideo.recencyScore year v = YouTubeVideo.recencyScore year w := by
    unfold YouTubeVideo.recencyScore YouTubeVideo.uploadYear?
    rw [h3]
  have hc : v.completenessScore = w.completenessScore := by
    unfold YouTubeVideo.completenessScore
    rw [h4]
  unfold YouTubeVideo.quality_score
  rw [hv, hd, hr, hc]

/-- C3 witness: two records with the same metric fields but different
identity fields evaluate to the same score. -/
theorem c3_witness :
    YouTubeVideo.quality_score 2026 sampleVideoA =
      YouTubeVideo.quality_score 2026
        { sampleVideoA with title := "other", channel := "other" } :=
  c3_amended_quality_score_deterministic 2026 _ _ rfl rfl rfl rfl rfl

/-- C4 counterexample: a record whose upload date lies in the future of the
evaluation year drives the recency factor above 1 (`years_old` is
negative and `max(1 - years_old * 0.2, 0.3)` is unbounded above), and the
score leaves the claimed interval [0,5]: the sample evaluates to 17.4. -/
def sampleVideoFuture : YouTubeVideo :=
  { video_id := "f", title := "future", url := "https://example.test/f"
    duration_seconds := 900, view_count := 0, upload_date := "20991231"
    channel := "chan" }

/-- C4 (counterexample): `quality_score` is not bounded by 5 on all valid
field values — a validly formatted future upload date yields 17.4 under
current year 2026. -/
theorem c4_counterexample_future_date_exceeds_five :
    YouTubeVideo.quality_score 2026 sampleVideoFuture = 87/5 ∧
    ¬ YouTubeVideo.quality_score 2026 sampleVideoFuture ≤ 5 := by
  have hv : sampleVideoFuture.viewScore = 0 := by
    norm_num [YouTubeVideo.viewScore, pyMin, sampleVideoFuture]
  have hd : sampleVideoFuture.durationScore = 1 := by
    norm_num [YouTubeVideo.durationScore, pyAbs, YouTubeVideo.duration_minutes,
      YouTubeVideo.targetDuration, sampleVideoFuture]
  have hc : sampleVideoFuture.completenessScore = 4/5 := by
    norm_num [YouTubeVideo.completenessScore, sampleVideoFuture]
  have hy : sampleVideoFuture.uploadYear? = some 2099 := by decide
  have hr : YouTubeVideo.recencyScore 2026 sampleVideoFuture = 78/5 := by
    norm_num [YouTubeVideo.recencyScore, hy, pyMax]
  have e : YouTubeVideo.quality_score 2026 sampleVideoFuture = ((1740 : Int) : ℚ) / 100 :=
    quality_score_eval hv hd hr hc (by push_cast; norm_num)
  refine ⟨by rw [e]; norm_num, by rw [e]; norm_num⟩

/-- C4 (amended): for every video record with a non-negative view count
whose upload year does not lie in the future of the current year (or whose
date is unparseable), `quality_score` lies in [0,5]; and holding every
other field fixed it is monotonically non-decreasing in `view_count`
(unconditionally). -/
theorem c4_amended_quality_range_and_monotone :
    (∀ (year : Int) (v : YouTubeVideo), 0 ≤ v.view_count →
      (∀ uy, v.uploadYear? = some uy → uy ≤ year) →
      0 ≤ YouTubeVideo.quality_score year v ∧
        YouTubeVideo.quality_score year v ≤ 5) ∧
    (∀ (year : Int) (v : YouTubeVideo) (n n' : Int), n ≤ n' →
      YouTubeVideo.quality_score year { v with view_count := n } ≤
        YouTubeVideo.quality_score year { v with view_count := n' }) := by
  constructor
  · intro year v hv hup
    have h1 := YouTubeVideo.viewScore_nonneg hv
    have h2 := YouTubeVideo.viewScore_le_one v
    have h3 := YouTubeVideo.durationScore_lb v
    have h4 := YouTubeVideo.durationScore_le_one v
    have h5 := YouTubeVideo.recencyScore_lb year v
    have h6 := YouTubeVideo.recencyScore_le_one hup
    have h7 := YouTubeVideo.completenessScore_lb v
    have h8 := YouTubeVideo.completenessScore_le_one v
    unfold YouTubeVideo.quality_score
    constructor
    · have h0 : round2 0 = 0 := by
        rw [round2_of_eq_intCast (show (0:ℚ) * 100 = ((0 : Int) : ℚ) by norm_num)]
        norm_num
      calc (0 : ℚ) = round2 0 := h0.symm
        _ ≤ _ := round2_mono (by nlinarith)
    · have h5' : round2 5 = 5 := by
        rw [round2_of_eq_intCast (show (5:ℚ) * 100 = ((500 : Int) : ℚ) by norm_num)]
        norm_num
      calc round2 _ ≤ round2 5 := round2_mono (by nlinarith)
        _ = 5 := h5'
  · intro year v n n' hn
    unfold YouTubeVideo.quality_score
    apply round2_mono
    have hview : YouTubeVideo.viewScore { v with view_count := n } ≤
        YouTubeVideo.viewScore { v with view_count := n' } := by
      unfold YouTubeVideo.viewScore
      rw [pyMin_eq, pyMin_eq]
      apply min_le_min _ (le_refl 1)
      have hc : (n : ℚ) ≤ (n' : ℚ) := by exact_mod_cast hn
      linarith
    have hdur : YouTubeVideo.durationScore { v with view_count := n } =
        YouTubeVideo.durationScore { v with view_count := n' } := rfl
    have hrec : YouTubeVideo.recencyScore year { v with view_count := n } =
        YouTubeVideo.recencyScore year { v with view_count := n' } := rfl
    have hcom : YouTubeVideo.completenessScore { v with view_count := n } =
        YouTubeVideo.completenessScore { v with view_count := n' } := rfl
    rw [hdur, hrec, hcom]
    nlinarith [hview]

/-- C4 witness: the range part applied to a 2025-uploaded video evaluated
in 2026, and the monotonicity part applied at view counts 1000 ≤ 50000. -/
theorem c4_witness :
    (0 ≤ YouTubeVideo.quality_score 2026
        { sampleVideoA with upload_date := "20250101" } ∧
      YouTubeVideo.quality_score 2026
        { sampleVideoA with upload_date := "20250101" } ≤ 5) ∧
    YouTubeVideo.quality_score 2026 { sampleVideoA with view_count := 1000 } ≤
      YouTubeVideo.quality_score 2026 { sampleVideoA with view_count := 50000 } := by
  constructor
  · apply c4_amended_quality_range_and_monotone.1 2026 _ (by decide)
    intro uy h
    have : ({ sampleVideoA with upload_date := "20250101" } :
        YouTubeVideo).uploadYear? = some 2025 := by decide
    rw [this] at h
    cases h
    decide
  · exact c4_amended_quality_range_and_monotone.2 2026 sampleVideoA 1000 50000 (by decide)

/-- C9: for every constructible record with a non-negative view count, the
duration factor is at least 0.4, the recency factor at least 0.3 (exactly
0.5 when the date is unparseable), the completeness factor at least 0.8,
hence `quality_score` is at least 1.5 — and the integer-truncated
effectiveness score used as the vocabulary/SEO aggregation weight is at
least 1, so no occurrence is counted with weight 0. -/
theorem c9_quality_score_lower_bound :
    ∀ (year : Int) (v : YouTubeVideo), 0 ≤ v.view_count →
      2/5 ≤ v.durationScore ∧
      3/10 ≤ YouTubeVideo.recencyScore year v ∧
      (v.uploadYear? = none → YouTubeVideo.recencyScore year v = 1/2) ∧
      4/5 ≤ v.completenessScore ∧
      3/2 ≤ YouTubeVideo.quality_score year v ∧
      1 ≤ truncInt (YouTubeVideo.quality_score year v) := by
  intro year v hv
  have h1 := YouTubeVideo.viewScore_nonneg hv
  have h3 := YouTubeVideo.durationScore_lb v
  have h5 := YouTubeVideo.recencyScore_lb year v
  have h7 := YouTubeVideo.completenessScore_lb v
  have hqs : 3/2 ≤ YouTubeVideo.quality_score year v := by
    unfold YouTubeVideo.quality_score
    have hhalf : round2 (3/2) = 3/2 := by
      rw [round2_of_eq_intCast (show (3/2:ℚ) * 100 = ((150 : Int) : ℚ) by norm_num)]
      norm_num
    calc (3/2 : ℚ) = round2 (3/2) := hhalf.symm
      _ ≤ _ := round2_mono (by nlinarith)
  refine ⟨h3, h5, ?_, h7, hqs, ?_⟩
  · intro hnone
    unfold YouTubeVideo.recencyScore
    rw [hnone]
  · unfold truncInt
    rw [if_pos (by linarith)]
    have h32 : (1 : Int) = ratFloor (3/2 : ℚ) := by
      rw [ratFloor_eq]
      norm_num
    rw [h32]
    exact ratFloor_mono hqs

/-- C9 witness: the bound applied to the minimal-looking concrete record
(zero views, no likes, old upload date). -/
theorem c9_witness :
    3/2 ≤ YouTubeVideo.quality_score 2026
        { sampleVideoA with upload_date := "19900101" } ∧
    1 ≤ truncInt (YouTubeVideo.quality_score 2026
        { sampleVideoA with upload_date := "19900101" }) := by
  have h := c9_quality_score_lower_bound 2026
    { sampleVideoA with upload_date := "19900101" } (by decide)
  exact ⟨h.2.2.2.2.1, h.2.2.2.2.2⟩

/-! ## Searcher theorems (C5) -/

/-- The descending-by-quality comparison used by the searcher sort. -/
def qualityGe (year : Int) (a b : YouTubeVideo) : Bool :=
  decide (YouTubeVideo.quality_score year b ≤ YouTubeVideo.quality_score year a)

theorem qualityGe_trans (year : Int) : ∀ a b c : YouTubeVideo,
    qualityGe year a b → qualityGe year b c → qualityGe year a c := by
  intro a b c hab hbc
  simp only [qualityGe, decide_eq_true_eq] at *
  exact le_trans hbc hab

theorem qualityGe_total (year : Int) : ∀ a b : YouTubeVideo,
    qualityGe year a b || qualityGe year b a := by
  intro a b
  simp only [qualityGe, Bool.or_eq_true, decide_eq_true_eq]
  exact le_total _ _

/-- Membership in the parsed result list forces the duration window (in
seconds) and excludes missing/zero durations. -/
theorem mem_parse_search_results {entries : List (Option RawVideoData)}
    {minD maxD : Int} {u : YouTubeVideo}
    (h : u ∈ parse_search_results entries minD maxD) :
    minD * 60 ≤ u.duration_seconds ∧ u.duration_seconds ≤ maxD * 60 := by
  unfold parse_search_results at h
  obtain ⟨e, _, hfe⟩ := List.mem_filterMap.mp h
  cases e with
  | none => exact absurd hfe (by simp)
  | some d =>
    dsimp only at hfe
    cases hdur : d.duration with
    | none =>
      rw [hdur] at hfe
      exact absurd hfe (by simp)
    | some dur =>
      rw [hdur] at hfe
      dsimp only at hfe
      split at hfe
      · exact absurd hfe (by simp)
      · split at hfe
        · exact absurd hfe (by simp)
        · rename_i hzero hwin
          rw [Option.some.injEq] at hfe
          subst hfe
          push_neg at hwin
          dsimp only
          omega

/-- C5: every result list returned by `search` contains only videos whose
duration lies between `min_duration` and `max_duration` minutes inclusive
(candidates without a usable duration never appear), is sorted descending
by `quality_score` (every adjacent pair is ordered), and has length at
most the configured cap. -/
theorem c5_search_duration_sorted_capped :
    ∀ (max_results : Nat) (year : Int) (entries : List (Option RawVideoData))
      (pref : Option Int) (minD maxD : Int) (l : List YouTubeVideo),
      search max_results year entries pref minD maxD = .ok l →
      (∀ v ∈ l, (minD : ℚ) ≤ v.duration_minutes ∧ v.duration_minutes ≤ (maxD : ℚ)) ∧
      l.Chain' (fun a b =>
        YouTubeVideo.quality_score year b ≤ YouTubeVideo.quality_score year a) ∧
      l.length ≤ max_results := by
  intro max_results year entries pref minD maxD l h
  unfold search at h
  dsimp only at h
  split at h
  · exact absurd h (by simp)
  · rw [Except.ok.injEq] at h
    subst h
    refine ⟨?_, ?_, ?_⟩
    · intro v hv
      have hv1 : v ∈ (parse_search_results entries minD maxD).map
          (fun u => { u with duration_preference := pref }) := by
        have := List.mem_of_mem_take hv
        rwa [List.mem_mergeSort] at this
      obtain ⟨u, hu, huv⟩ := List.mem_map.mp hv1
      have hbounds := mem_parse_search_results hu
      have hdur : v.duration_seconds = u.duration_seconds := by
        rw [← huv]
      unfold YouTubeVideo.duration_minutes
      rw [hdur]
      have h60 : ((minD * 60 : Int) : ℚ) ≤ ((u.duration_seconds : Int) : ℚ) := by
        exact_mod_cast hbounds.1
      have h60' : ((u.duration_seconds : Int) : ℚ) ≤ ((maxD * 60 : Int) : ℚ) := by
        exact_mod_cast hbounds.2
      push_cast at h60 h60'
      constructor <;> linarith
    · have hs := List.sorted_mergeSort
        (qualityGe_trans year) (qualityGe_total year)
        ((parse_search_results entries minD maxD).map
          (fun u => { u with duration_preference := pref }))
      have hp : (((parse_search_results entries minD maxD).map
          (fun u => { u with duration_preference := pref })).mergeSort
            (qualityGe year)).Pairwise (fun a b =>
          YouTubeVideo.quality_score year b ≤ YouTubeVideo.quality_score year a) := by
        refine hs.imp ?_
        intro a b hab
        simpa [qualityGe, decide_eq_true_eq] using hab
      have hp' := hp.sublist (List.take_sublist max_results _)
      exact hp'.chain'
    · rw [List.length_take]
      exact min_le_left _ _

/-- A raw search entry that parses and survives the 5–45 minute filter. -/
def sampleRawEntry : RawVideoData :=
  { id := some "x", title := some "T", duration := some 600
    view_count := some 1000, upload_date := some "20250101", uploader := some "U" }

/-- The video record `search` builds from `sampleRawEntry`. -/
def sampleSearchVideo : YouTubeVideo :=
  { video_id := "x", title := "T", url := "", duration_seconds := 600
    view_count := 1000, upload_date := "20250101", channel := "U"
    like_count := none, duration_preference := none }

/-- C5 witness: a concrete one-entry search run satisfying all three
conclusions. -/
theorem c5_witness :
    (∀ v ∈ [sampleSearchVideo],
      ((5 : Int) : ℚ) ≤ v.duration_minutes ∧ v.duration_minutes ≤ ((45 : Int) : ℚ)) ∧
    ([sampleSearchVideo].Chain' (fun a b =>
      YouTubeVideo.quality_score 2026 b ≤ YouTubeVideo.quality_score 2026 a)) ∧
    ([sampleSearchVideo].length ≤ 10) := by
  have h : search 10 2026 [some sampleRawEntry] none 5 45 = .ok [sampleSearchVideo] := by
    simp [search, parse_search_results, sampleRawEntry, sampleSearchVideo]
  exact c5_search_duration_sorted_capped 10 2026 [some sampleRawEntry] none 5 45
    [sampleSearchVideo] h

/-! ## Batch-processor theorems (C6) -/

theorem processVideosLoop_eq (results : List (Except Unit VideoTranscript)) :
    ∀ acc, processVideosLoop results acc = acc ++ results.filterMap Except.toOption := by
  induction results with
  | nil => intro acc; simp [processVideosLoop]
  | cons r rest ih =>
    intro acc
    cases r with
    | ok t => simp [processVideosLoop, ih, Except.toOption]
    | error e => simp [processVideosLoop, ih, Except.toOption]

/-- C6: `process_videos` skips failed videos without aborting, raises
`BatchProcessingError` exactly when every video failed, and otherwise
returns exactly the transcripts of the successful videos in order. -/
theorem c6_process_videos_partial_failure :
    ∀ (results : List (Except Unit VideoTranscript)),
      (process_videos results = .error () ↔ ∀ r ∈ results, r = .error ()) ∧
      (∀ ts, process_videos results = .ok ts →
        ts = results.filterMap Except.toOption) := by
  intro results
  unfold process_videos
  rw [processVideosLoop_eq results []]
  simp only [List.nil_append]
  constructor
  · constructor
    · intro h
      split at h
      · rename_i hemp
        rw [List.isEmpty_iff, List.filterMap_eq_nil_iff] at hemp
        intro r hr
        have := hemp r hr
        cases r with
        | ok t => simp [Except.toOption] at this
        | error e => rfl
      · exact absurd h (by simp)
    · intro h
      have hemp : (results.filterMap Except.toOption).isEmpty = true := by
        rw [List.isEmpty_iff, List.filterMap_eq_nil_iff]
        intro r hr
        rw [h r hr]
        rfl
      rw [if_pos hemp]
  · intro ts h
    split at h
    · exact absurd h (by simp)
    · rw [Except.ok.injEq] at h
      exact h.symm

/-- Concrete successful transcripts for the C6 witness. -/
def sampleTranscriptOne : VideoTranscript :=
  { video := sampleVideoA, transcript_text := "hola", word_timestamps := []
    language := "es", transcription_time_seconds := 1 }

/-- A second concrete transcript for the C6 witness. -/
def sampleTranscriptThree : VideoTranscript :=
  { video := sampleVideoFuture, transcript_text := "adios", word_timestamps := []
    language := "es", transcription_time_seconds := 2 }

/-- C6 witness: three videos where the second one's download raises —
exactly the two successful transcripts come back, in order, and no error
is raised. -/
theorem c6_witness :
    [sampleTranscriptOne, sampleTranscriptThree] =
      List.filterMap Except.toOption
        [.ok sampleTranscriptOne, .error (), .ok sampleTranscriptThree] :=
  (c6_process_videos_partial_failure
    [.ok sampleTranscriptOne, .error (), .ok sampleTranscriptThree]).2
    [sampleTranscriptOne, sampleTranscriptThree] rfl

/-! ## Pattern-analyzer theorems (C7) -/

/-- C7 (counterexample): the claim says the failure-path default analysis
has its hook fields zeroed, but the code defaults `hook_end` (and
`intro_end`) to 30, not 0. -/
theorem c7_counterexample_fallback_hook_end_not_zero :
    (analyze 2026 sampleTranscriptOne (.error ())).hook_end = 30 ∧
    (analyze 2026 sampleTranscriptOne (.error ())).hook_end ≠ 0 :=
  ⟨rfl, by decide⟩

/-- C7 (amended): `analyze` never propagates an LLM or parse exception —
it is a total function of the modelled failure outcomes — and on every
failing input (LLM call raising, JSON decode failure, or a
`ValueError`/`TypeError` while extracting the hook end) it returns the
default analysis: all list fields empty, `hook_start = 0`, empty hook
text, `hook_end` and `intro_end` defaulted to 30, the `"unknown"`
sentinel for `hook_type`/`hook_effectiveness`, and
`conclusion_start = duration_seconds - 60`. -/
theorem c7_amended_analyze_failure_defaults :
    ∀ (year : Int) (t : VideoTranscript)
      (llm : Except Unit (String × Except Unit GeminiJson)),
      (llm = .error () ∨
        (∃ text, llm = .ok (text, .error ())) ∨
        (∃ text d, llm = .ok (text, .ok d) ∧
          hookEndOfSections (d.sections.getD []) = .error ())) →
      (analyze year t llm).hook_start = 0 ∧
      (analyze year t llm).hook_end = 30 ∧
      (analyze year t llm).hook_text = "" ∧
      (analyze year t llm).hook_type = "unknown" ∧
      (analyze year t llm).hook_effectiveness = "unknown" ∧
      (analyze year t llm).intro_end = 30 ∧
      (analyze year t llm).sections = [] ∧
      (analyze year t llm).conclusion_start = t.video.duration_seconds - 60 ∧
      (analyze year t llm).ctas = [] ∧
      (analyze year t llm).technical_terms = [] ∧
      (analyze year t llm).common_phrases = [] ∧
      (analyze year t llm).transition_phrases = [] ∧
      (analyze year t llm).techniques = [] ∧
      (analyze year t llm).title_keywords = [] ∧
      (analyze year t llm).estimated_tags = [] := by
  intro year t llm h
  rcases h with rfl | ⟨text, rfl⟩ | ⟨text, d, rfl, herr⟩
  · simp [analyze, fallbackAnalysis]
  · simp [analyze, parse_analysis_response, fallbackAnalysis]
  · simp [analyze, parse_analysis_response, herr, fallbackAnalysis]

/-- A decoded response whose first section's `end` value is a non-string,
so the hook-end extraction raises `TypeError`. -/
def sampleBadGemini : GeminiJson := { sections := some [{ endTs := some .notStr }] }

/-- C7 witness: the amended theorem applied to the `TypeError` path. -/
theorem c7_witness :
    (analyze 2026 sampleTranscriptOne (.ok ("resp", .ok sampleBadGemini))).hook_end = 30 ∧
    (analyze 2026 sampleTranscriptOne (.ok ("resp", .ok sampleBadGemini))).sections = [] := by
  have h := c7_amended_analyze_failure_defaults 2026 sampleTranscriptOne
    (.ok ("resp", .ok sampleBadGemini))
    (Or.inr (Or.inr ⟨"resp", sampleBadGemini, rfl, rfl⟩))
  exact ⟨h.2.1, h.2.2.2.2.2.2.1⟩

/-! ## Synthesizer fixtures and theorems (C1, C2, C10) -/

/-- Fixture builder: a `VideoAnalysis` with the given video, hook window
end and effectiveness score, everything else empty (as `__post_init__`
would produce from an empty LLM analysis). -/
def mkAnalysis (v : YouTubeVideo) (he : Int) (eff : ℚ) : VideoAnalysis :=
  { video := v, hook_start := 0, hook_end := he, hook_text := ""
    hook_type := "unknown", hook_effectiveness := "unknown", intro_end := 0
    sections := [], conclusion_start := 0, ctas := [], technical_terms := []
    common_phrases := [], transition_phrases := [], techniques := []
    title_keywords := [], estimated_tags := [], effectiveness_score := eff
    raw_analysis := "" }

/-- A video whose 2026 quality score is exactly 5.0. -/
def videoQ50 : YouTubeVideo :=
  { video_id := "q50", title := "v50", url := "", duration_seconds := 900
    view_count := 100000, upload_date := "20260101", channel := "c"
    like_count := some 10, duration_preference := none }

/-- A video whose 2026 quality score is exactly 4.8. -/
def videoQ48 : YouTubeVideo :=
  { video_id := "q48", title := "v48", url := "", duration_seconds := 900
    view_count := 100000, upload_date := "20260101", channel := "c"
    like_count := none, duration_preference := none }

/-- A video whose 2026 quality score is exactly 2.8. -/
def videoQ28 : YouTubeVideo :=
  { video_id := "q28", title := "v28", url := "", duration_seconds := 900
    view_count := 0, upload_date := "20260101", channel := "c"
    like_count := none, duration_preference := none }

theorem videoQ50_score : YouTubeVideo.quality_score 2026 videoQ50 = 5 := by
  have hv : videoQ50.viewScore = 1 := by
    norm_num [YouTubeVideo.viewScore, pyMin, videoQ50]
  have hd : videoQ50.durationScore = 1 := by
    norm_num [YouTubeVideo.durationScore, pyAbs, YouTubeVideo.duration_minutes,
      YouTubeVideo.targetDuration, videoQ50]
  have hc : videoQ50.completenessScore = 1 := by
    norm_num [YouTubeVideo.completenessScore, videoQ50]
  have hy : videoQ50.uploadYear? = some 2026 := by decide
  have hr : YouTubeVideo.recencyScore 2026 videoQ50 = 1 := by
    norm_num [YouTubeVideo.recencyScore, hy, pyMax]
  have e : YouTubeVideo.quality_score 2026 videoQ50 = ((500 : Int) : ℚ) / 100 :=
    quality_score_eval hv hd hr hc (by push_cast; norm_num)
  rw [e]; norm_num

theorem videoQ48_score : YouTubeVideo.quality_score 2026 videoQ48 = 24/5 := by
  have hv : videoQ48.viewScore = 1 := by
    norm_num [YouTubeVideo.viewScore, pyMin, videoQ48]
  have hd : videoQ48.durationScore = 1 := by
    norm_num [YouTubeVideo.durationScore, pyAbs, YouTubeVideo.duration_minutes,
      YouTubeVideo.targetDuration, videoQ48]
  have hc : videoQ48.completenessScore = 4/5 := by
    norm_num [YouTubeVideo.completenessScore, videoQ48]
  have hy : videoQ48.uploadYear? = some 2026 := by decide
  have hr : YouTubeVideo.recencyScore 2026 videoQ48 = 1 := by
    norm_num [YouTubeVideo.recencyScore, hy, pyMax]
  have e : YouTubeVideo.quality_score 2026 videoQ48 = ((480 : Int) : ℚ) / 100 :=
    quality_score_eval hv hd hr hc (by push_cast; norm_num)
  rw [e]; norm_num

theorem videoQ28_score : YouTubeVideo.quality_score 2026 videoQ28 = 14/5 := by
  have hv : videoQ28.viewScore = 0 := by
    norm_num [YouTubeVideo.viewScore, pyMin, videoQ28]
  have hd : videoQ28.durationScore = 1 := by
    norm_num [YouTubeVideo.durationScore, pyAbs, YouTubeVideo.duration_minutes,
      YouTubeVideo.targetDuration, videoQ28]
  have hc : videoQ28.completenessScore = 4/5 := by
    norm_num [YouTubeVideo.completenessScore, videoQ28]
  have hy : videoQ28.uploadYear? = some 2026 := by decide
  have hr : YouTubeVideo.recencyScore 2026 videoQ28 = 1 := by
    norm_num [YouTubeVideo.recencyScore, hy, pyMax]
  have e : YouTubeVideo.quality_score 2026 videoQ28 = ((280 : Int) : ℚ) / 100 :=
    quality_score_eval hv hd hr hc (by push_cast; norm_num)
  rw [e]; norm_num

/-- The C1 failing input: the first analysis contributes no hook duration
(`hook_end = 0`), the other two contribute 10 s and 30 s. -/
def analysisNoHook : VideoAnalysis := mkAnalysis videoQ50 0 5

/-- Second C1 analysis: 10-second hook, effectiveness 4.8. -/
def analysisHook10 : VideoAnalysis := mkAnalysis videoQ48 10 (24/5)

/-- Third C1 analysis: 30-second hook, effectiveness 2.8. -/
def analysisHook30 : VideoAnalysis := mkAnalysis videoQ28 30 (14/5)

/-- The weighted hook-duration average the spec asks for (its §4.5 /
design-note wording): pair each contributing value with its own
analysis's effectiveness score. -/
def specHookDurationAvg (analyses : List VideoAnalysis) : ℚ :=
  if (analyses.filterMap fun a =>
      if a.hook_end > 0
      then some (((a.hook_end - a.hook_start : Int) : ℚ), a.effectiveness_score)
      else none).isEmpty
  then 15
  else
    ((analyses.filterMap fun a =>
        if a.hook_end > 0
        then some (((a.hook_end - a.hook_start : Int) : ℚ), a.effectiveness_score)
        else none).map fun p => p.1 * p.2).sum /
    ((analyses.filterMap fun a =>
        if a.hook_end > 0
        then some (((a.hook_end - a.hook_start : Int) : ℚ), a.effectiveness_score)
        else none).map Prod.snd).sum

/-- C1: the code pairs the filtered hook durations with
`weights[:len(values)]` — a prefix of the full effectiveness list — not
with the contributing analyses' own scores.  On the failing input the code
produces `(10·5.0 + 30·4.8)/(5.0 + 4.8) = 970/49 ≈ 19.8`, while the
claimed formula gives `(10·4.8 + 30·2.8)/(4.8 + 2.8) = 330/19 ≈ 17.4`;
the defaults (intro-end 60, conclusion 0, mode 3) agree with the claim.
The last three conjuncts check the effectiveness scores really are the
quality scores of the underlying videos. -/
theorem c1_code_bug_weight_misalignment :
    calc_optimal_structure [analysisNoHook, analysisHook10, analysisHook30] =
      .ok { hook_duration_avg := 970/49, intro_end_avg := 60
            num_sections_mode := 3, conclusion_start_avg := 0, total_videos := 3 } ∧
    specHookDurationAvg [analysisNoHook, analysisHook10, analysisHook30] = 330/19 ∧
    (970/49 : ℚ) ≠ 330/19 ∧
    analysisNoHook.effectiveness_score =
      YouTubeVideo.quality_score 2026 analysisNoHook.video ∧
    analysisHook10.effectiveness_score =
      YouTubeVideo.quality_score 2026 analysisHook10.video ∧
    analysisHook30.effectiveness_score =
      YouTubeVideo.quality_score 2026 analysisHook30.video := by
  refine ⟨?_, ?_, by norm_num, ?_, ?_, ?_⟩
  · norm_num [calc_optimal_structure, weighted_avg, analysisNoHook, analysisHook10,
      analysisHook30, mkAnalysis, List.filterMap, Bind.bind, Except.bind,
      Pure.pure, Except.pure]
  · norm_num [specHookDurationAvg, analysisNoHook, analysisHook10,
      analysisHook30, mkAnalysis, List.filterMap]
  · rw [show analysisNoHook.effectiveness_score = 5 from rfl,
      show analysisNoHook.video = videoQ50 from rfl, videoQ50_score]
  · rw [show analysisHook10.effectiveness_score = 24/5 from rfl,
      show analysisHook10.video = videoQ48 from rfl, videoQ48_score]
  · rw [show analysisHook30.effectiveness_score = 14/5 from rfl,
      show analysisHook30.video = videoQ28 from rfl, videoQ28_score]

/-- Well-formedness of one CTA descriptor relative to its video's
duration: the timestamp is a number, or a parseable `MM:SS` string, or a
colon-free string on a video of non-positive duration (the exact
conditions under which `_extract_effective_ctas` does not raise). -/
def ctaOk (dur : Int) (c : Cta) : Prop :=
  match c.timestamp with
  | .int _ => True
  | .str s =>
    if pyIn ":" s then
      (pyInt? ((pySplit ":" s).getD 0 "")).isSome ∧
      (pyInt? ((pySplit ":" s).getD 1 "")).isSome
    else dur ≤ 0

theorem ctaStep_ok {dur : Int} {c : Cta} (h : ctaOk dur c) (st : CtaState) :
    ∃ st', ctaStep dur st c = .ok st' := by
  unfold ctaOk at h
  unfold ctaStep
  cases hts : c.timestamp with
  | int n =>
    simp only [Bind.bind, Except.bind, Pure.pure, Except.pure]
    split
    · exact ⟨_, rfl⟩
    · exact ⟨_, rfl⟩
  | str s =>
    rw [hts] at h
    dsimp only at h
    dsimp only
    by_cases hin : pyIn ":" s = true
    · rw [if_pos hin] at h
      rw [if_pos hin]
      obtain ⟨h1, h2⟩ := h
      obtain ⟨a, ha⟩ := Option.isSome_iff_exists.mp h1
      obtain ⟨b, hb⟩ := Option.isSome_iff_exists.mp h2
      rw [ha, hb]
      simp only [Bind.bind, Except.bind, Pure.pure, Except.pure]
      split
      · exact ⟨_, rfl⟩
      · exact ⟨_, rfl⟩
    · rw [if_neg hin] at h
      rw [if_neg hin]
      simp only [Bind.bind, Except.bind, Pure.pure, Except.pure]
      rw [if_neg (by omega)]
      exact ⟨_, rfl⟩

theorem foldlM_ctaStep_ok {dur : Int} {ctas : List Cta}
    (h : ∀ c ∈ ctas, ctaOk dur c) :
    ∀ st, ∃ st', ctas.foldlM (ctaStep dur) st = .ok st' := by
  induction ctas with
  | nil => exact fun st => ⟨st, rfl⟩
  | cons c rest ih =>
    intro st
    obtain ⟨st1, h1⟩ := ctaStep_ok (h c (by simp)) st
    obtain ⟨st2, h2⟩ := ih (fun x hx => h x (by simp [hx])) st1
    refine ⟨st2, ?_⟩
    rw [List.foldlM_cons, h1]
    simpa [Bind.bind, Except.bind] using h2

theorem foldlM_analyses_ok {analyses : List VideoAnalysis}
    (h : ∀ a ∈ analyses, ∀ c ∈ a.ctas, ctaOk a.video.duration_seconds c) :
    ∀ st, ∃ st', analyses.foldlM
      (fun st a => a.ctas.foldlM (ctaStep a.video.duration_seconds) st) st = .ok st' := by
  induction analyses with
  | nil => exact fun st => ⟨st, rfl⟩
  | cons a rest ih =>
    intro st
    obtain ⟨st1, h1⟩ := foldlM_ctaStep_ok (h a (by simp)) st
    obtain ⟨st2, h2⟩ := ih (fun x hx => h x (by simp [hx])) st1
    refine ⟨st2, ?_⟩
    rw [List.foldlM_cons, h1]
    simpa [Bind.bind, Except.bind] using h2

theorem extract_effective_ctas_ok {analyses : List VideoAnalysis}
    (h : ∀ a ∈ analyses, ∀ c ∈ a.ctas, ctaOk a.video.duration_seconds c) :
    ∃ out, extract_effective_ctas analyses 15 = .ok out := by
  unfold extract_effective_ctas
  obtain ⟨st, hst⟩ := foldlM_analyses_ok h { counter := [], details := [] }
  simp only [Bind.bind, Except.bind, hst]
  exact ⟨_, rfl⟩

theorem weighted_avg_ok {values weights : List ℚ}
    (hlen : values.length = weights.length)
    (hsum : values ≠ [] → 0 < weights.sum) :
    ∃ q, weighted_avg values weights = .ok q := by
  unfold weighted_avg
  by_cases he : values.isEmpty
  · exact ⟨0, by rw [if_pos he]⟩
  · have hne : values ≠ [] := by
      intro hnil
      rw [hnil] at he
      exact he rfl
    rw [if_neg he, if_neg (by omega), if_neg (ne_of_gt (hsum hne))]
    exact ⟨_, rfl⟩

theorem calc_optimal_structure_ok {analyses : List VideoAnalysis}
    (hpos : ∀ a ∈ analyses, 0 < a.effectiveness_score) :
    ∃ o, calc_optimal_structure analyses = .ok o := by
  have hposW : ∀ w ∈ analyses.map (·.effectiveness_score), 0 < w := by
    intro w hw
    obtain ⟨a, ha, rfl⟩ := List.mem_map.mp hw
    exact hpos a ha
  have key : ∀ (f : VideoAnalysis → Option ℚ) (df : ℚ),
      ∃ q, (if (analyses.filterMap f).isEmpty then Except.ok df
        else weighted_avg (analyses.filterMap f)
          ((analyses.map (·.effectiveness_score)).take (analyses.filterMap f).length)) =
        (Except.ok q : Except PyErr ℚ) := by
    intro f df
    have hlen : (analyses.filterMap f).length ≤
        (analyses.map (·.effectiveness_score)).length :=
      le_trans (List.length_filterMap_le _ _) (by rw [List.length_map])
    by_cases he : (analyses.filterMap f).isEmpty
    · exact ⟨df, by rw [if_pos he]⟩
    · rw [if_neg he]
      apply weighted_avg_ok
      · rw [List.length_take]
        omega
      · intro hne
        apply List.sum_pos
        · intro w hw
          exact hposW w (List.mem_of_mem_take hw)
        · intro hnil
          have h0 : ((analyses.map (·.effectiveness_score)).take
              (analyses.filterMap f).length).length = 0 := by
            rw [hnil]
            rfl
          rw [List.length_take] at h0
          have : (analyses.filterMap f).length ≠ 0 :=
            fun hz => he (List.isEmpty_iff_length_eq_zero.mpr hz)
          omega
  unfold calc_optimal_structure
  obtain ⟨q1, h1⟩ := key (fun a =>
      if a.hook_end > 0 then some ((a.hook_end - a.hook_start : Int) : ℚ) else none) 15
  obtain ⟨q2, h2⟩ := key (fun a =>
      if a.intro_end > 0 then some ((a.intro_end : ℚ)) else none) 60
  obtain ⟨q3, h3⟩ := key (fun a =>
      if a.conclusion_start > 0 then some ((a.conclusion_start : ℚ)) else none) 0
  dsimp only
  rw [h1, h2, h3]
  exact ⟨_, rfl⟩

/-- The three analyses above also power the C2 witness; this bad analysis
carries a CTA whose `MM:SS` timestamp has non-numeric components, making
`int()` raise `ValueError` inside `synthesize` on a *non-empty* input. -/
def badCtaAnalysis : VideoAnalysis :=
  { mkAnalysis videoQ50 0 5 with
    ctas := [{ text := "t", type := "sub", timestamp := .str "x:y" }] }

/-- C2 (counterexample): `synthesize` raises `ValueError` on this
non-empty analysis list (a malformed CTA timestamp), so "raises ValueError
exactly when the analyses list is empty" is false as stated. -/
theorem c2_counterexample_valueerror_on_nonempty :
    [badCtaAnalysis] ≠ [] ∧
    synthesize [badCtaAnalysis] "topic" "report" = .error .valueError :=
  ⟨by simp, by decide⟩

/-- C2 (amended): `synthesize` raises `ValueError` on the empty list; and
on every non-empty list whose effectiveness scores are positive and whose
CTA timestamps are well-formed (no `ValueError`/`TypeError`/
`ZeroDivisionError` from the aggregation stages), it returns a record with
`num_videos_analyzed` equal to the input length and
`average_effectiveness` equal to the unweighted arithmetic mean of the
effectiveness scores. -/
theorem c2_amended_synthesize_contract :
    (∀ (topic report : String), synthesize [] topic report = .error .valueError) ∧
    (∀ (analyses : List VideoAnalysis) (topic report : String),
      analyses ≠ [] →
      (∀ a ∈ analyses, 0 < a.effectiveness_score) →
      (∀ a ∈ analyses, ∀ c ∈ a.ctas, ctaOk a.video.duration_seconds c) →
      ∃ s, synthesize analyses topic report = .ok s ∧
        s.num_videos_analyzed = analyses.length ∧
        s.average_effectiveness =
          (analyses.map (·.effectiveness_score)).sum / (analyses.length : ℚ)) := by
  constructor
  · intro topic report
    rfl
  · intro analyses topic report hne hpos hok
    obtain ⟨o, ho⟩ := calc_optimal_structure_ok hpos
    obtain ⟨cs, hcs⟩ := extract_effective_ctas_ok hok
    unfold synthesize
    rw [if_neg (fun hemp => hne (List.isEmpty_iff.mp hemp))]
    simp only [Bind.bind, Except.bind, ho, hcs]
    exact ⟨_, rfl, rfl, rfl⟩

/-- C2 witness: two concrete analyses with no CTAs; the synthesis succeeds
with `num_videos_analyzed = 2` and the mean effectiveness `(4.8+2.8)/2`. -/
theorem c2_witness :
    ∃ s, synthesize [analysisHook10, analysisHook30] "t" "r" = .ok s ∧
      s.num_videos_analyzed = [analysisHook10, analysisHook30].length ∧
      s.average_effectiveness =
        ([analysisHook10, analysisHook30].map (·.effectiveness_score)).sum /
          (([analysisHook10, analysisHook30].length : Nat) : ℚ) :=
  c2_amended_synthesize_contract.2 [analysisHook10, analysisHook30] "t" "r"
    (by simp)
    (by
      intro a ha
      rcases List.mem_pair.mp ha with rfl | rfl <;>
        norm_num [analysisHook10, analysisHook30, mkAnalysis])
    (by
      intro a ha c hc
      rcases List.mem_pair.mp ha with rfl | rfl <;>
        simp [analysisHook10, analysisHook30, mkAnalysis] at hc)

/-- A zero-duration video hosting the CTA-collision fixture (the key
collision is independent of the duration; zero keeps positions empty). -/
def videoDur0 : YouTubeVideo :=
  { video_id := "z", title := "t", url := "", duration_seconds := 0
    view_count := 0, upload_date := "", channel := "c" }

/-- Two CTAs with distinct `(type, text)` pairs whose concatenated
`type:text` keys coincide: `("a:b", "c")` and `("a", "b:c")` both map to
the key `"a:b:c"`. -/
def collideAnalysis : VideoAnalysis :=
  { mkAnalysis videoDur0 0 5 with
    ctas := [{ text := "c", type := "a:b", timestamp := .int 0 },
             { text := "b:c", type := "a", timestamp := .int 0 }] }

/-- C10: the CTA aggregation key `type ++ ":" ++ text` is not injective on
`(type, text)` pairs — the two distinct CTAs above are merged into a
single aggregated entry whose frequency counts both occurrences (and
whose displayed text/type come from the first of the two). -/
theorem c10_cta_key_collision :
    (("a:b", "c") ≠ (("a" : String), ("b:c" : String))) ∧
    extract_effective_ctas [collideAnalysis] 15 =
      .ok [{ text := "c", type := "a:b", frequency := 2,
             avg_position_percent := 0 }] := by
  refine ⟨by decide, ?_⟩
  have hst : List.foldlM
      (fun st a => a.ctas.foldlM (ctaStep a.video.duration_seconds) st)
      ({ counter := [], details := [] } : CtaState) [collideAnalysis] =
      .ok { counter := [("a:b:c", 2)],
            details := [("a:b:c", { text := "c", type := "a:b", positions := [] })] } := by
    decide
  unfold extract_effective_ctas
  simp only [Bind.bind, Except.bind, hst]
  simp [mostCommon, Pure.pure, Except.pure]

/-! ## Script Generator (src/youtube_script_generator/script_generator.py)

`generation_timestamp` is wall-clock metadata and not modelled;
`style_preference` only shapes the prompt sent to the external LLM, whose
response is the `llm` input. -/

/-- Model of Python `len(s.split())`: the number of maximal runs of
non-whitespace characters. -/
def pyWordCount (s : String) : Nat :=
  (s.toList.foldl
    (fun (st : Nat × Bool) c =>
      if c.isWhitespace then (st.1, false)
      else if st.2 then st else (st.1 + 1, true))
    (0, false)).1

/-- Model of Python `s.count(sub)` for a non-empty `sub`: non-overlapping
occurrences. -/
def pyCount (s sub : String) : Nat := (pySplit sub s).length - 1

/-- Model of Python `s.lower()` (character-wise). -/
def pyLower (s : String) : String := ⟨s.toList.map Char.toLower⟩

/-- `GeneratedScript` dataclass (without the wall-clock timestamp). -/
structure GeneratedScript where
  user_idea : String
  script_markdown : String
  estimated_duration_minutes : Int
  word_count : Nat
  seo_title : String
  seo_description : String
  seo_tags : List String
  synthesis_used : String
  num_reference_videos : Nat
  cost_usd : ℚ
  estimated_quality_score : Int
  deriving Repr, DecidableEq

/-- The code-fence cleanup at the top of `_parse_script_response`. -/
def cleanResponse (text : String) : String :=
  let c0 := pyStrip text
  let c1 := if pyStartsWith c0 "```markdown" then c0.drop 11 else c0
  let c2 := if pyStartsWith c1 "```" then c1.drop 3 else c1
  let c3 := if pyEndsWith c2 "```" then c2.dropRight 3 else c2
  pyStrip c3

/-- The inner loop of `_extract_seo_title` for one marker: scan adjacent
line pairs; where the marker occurs in a line, clean the following line
and return it (truncated to 70) when longer than 10 characters. -/
def titleFromMarkerLines (marker : String) : List String → Option String
  | l1 :: l2 :: rest =>
    if pyIn marker l1 then
      let t := pyStrip (pyStripP (· == '#')
        (pyReplace (pyReplace (pyStrip l2) "[" "") "]" ""))
      if t.length > 10 then some (t.take 70)
      else titleFromMarkerLines marker (l2 :: rest)
    else titleFromMarkerLines marker (l2 :: rest)
  | _ => none

/-- `_extract_seo_title`: marker scan (three markers in order), then the
first `# ` heading, then the keyword/idea fallback. -/
def extract_seo_title (script_text user_idea : String)
    (synthesis : PatternSynthesis) : String :=
  let lines := pySplit "\n" script_text
  match (if pyIn "**TÍTULO**:" script_text
      then titleFromMarkerLines "**TÍTULO**:" lines else none) with
  | some t => t
  | none =>
  match (if pyIn "TÍTULO:" script_text
      then titleFromMarkerLines "TÍTULO:" lines else none) with
  | some t => t
  | none =>
  match (if pyIn "# " script_text
      then titleFromMarkerLines "# " lines else none) with
  | some t => t
  | none =>
  match lines.find? (fun l => pyStartsWith l "# ") with
  | some line => (pyStrip (pyStripP (· == '#') line)).take 70
  | none =>
    match synthesis.seo_patterns.title_keywords with
    | kw :: _ =>
      if kw.keyword ≠ "" then (kw.keyword ++ " - " ++ user_idea).take 70
      else user_idea.take 70
    | [] => user_idea.take 70

/-- The intro-paragraph collection loop of `_extract_seo_description`. -/
def introLinesLoop : List String → List String → List String
  | [], acc => acc
  | l :: rest, acc =>
    if pyStrip l ≠ "" ∧ ¬ pyStartsWith l "#" ∧ ¬ pyStartsWith l "[" then
      if (String.intercalate " " (acc ++ [pyStrip l])).length > 150 then acc ++ [pyStrip l]
      else introLinesLoop rest (acc ++ [pyStrip l])
    else introLinesLoop rest acc

/-- `_extract_seo_description`: explicit marker, else intro-line heuristic
over `lines[5:20]`, else the synthesized fallback sentence. -/
def extract_seo_description (script_text user_idea : String)
    (synthesis : PatternSynthesis) : String :=
  match (if pyIn "**DESCRIPCIÓN**:" script_text then
      (let parts := pySplit "**DESCRIPCIÓN**:" script_text
       if parts.length > 1 then
         let desc := (pyStrip ((pySplit "---"
           ((pySplit "**TAGS**" (parts.getD 1 "")).getD 0 "")).getD 0 "")).take 500
         if desc.length > 50 then some desc else none
       else none)
    else none) with
  | some d => d
  | none =>
    match introLinesLoop (((pySplit "\n" script_text).drop 5).take 15) [] with
    | [] => "Video sobre " ++ user_idea ++ ". Basado en análisis de " ++
        toString synthesis.num_videos_analyzed ++ " videos exitosos."
    | intro_lines => (String.intercalate " " intro_lines).take 500

/-- The case-insensitive order-preserving de-duplication at the end of
`_extract_seo_tags`. -/
def dedupLowerLoop : List String → List String → List String → List String
  | [], _, acc => acc.reverse
  | t :: rest, seen, acc =>
    if seen.contains (pyLower t) then dedupLowerLoop rest seen acc
    else dedupLowerLoop rest (pyLower t :: seen) (t :: acc)

/-- `_extract_seo_tags`: explicit marker line, else the keyword/tag union
from the synthesis, de-duplicated case-insensitively, capped at 20. -/
def extract_seo_tags (script_text : String) (synthesis : PatternSynthesis) :
    List String :=
  match (if pyIn "**TAGS**:" script_text then
      (let parts := pySplit "**TAGS**:" script_text
       if parts.length > 1 then
         let tags := (((pySplit ","
             ((pySplit "\n" ((pySplit "---" (parts.getD 1 "")).getD 0 "")).getD 0
               "")).map pyStrip).filter fun t => t.length > 2)
         if tags ≠ [] then some (tags.take 20) else none
       else none)
    else none) with
  | some ts => ts
  | none =>
    (dedupLowerLoop
      ((synthesis.seo_patterns.title_keywords.take 15).map (·.keyword) ++
        (synthesis.seo_patterns.estimated_tags.take 10).map (·.tag)) [] []).take 20

/-- `_estimate_quality_score`: base 50, word-count bands, structure
bonuses, SEO bonuses, clamped to [1,100]. -/
def estimate_quality_score (script_text : String) (word_count : Nat)
    (seo_title : String) (seo_tags : List String) : Int :=
  let s1 : Int := 50 +
    (if 500 ≤ word_count ∧ word_count ≤ 2000 then 20
     else if (300 ≤ word_count ∧ word_count < 500) ∨
         (2000 < word_count ∧ word_count ≤ 3000) then 10
     else 0)
  let s2 := s1 + (if pyIn "[00:00]" script_text || pyIn "[0:00]" script_text then 5 else 0)
  let s3 := s2 + (if pyIn "##" script_text then 5 else 0)
  let s4 := s3 +
    (if 3 ≤ pyCount script_text "##" ∧ pyCount script_text "##" ≤ 7 then 5 else 0)
  let s5 := s4 + (if seo_title ≠ "" ∧ 20 ≤ seo_title.length then 5 else 0)
  let s6 := s5 + (if 10 ≤ seo_tags.length then 5 else 0)
  let s7 := s6 + (if 15 ≤ seo_tags.length then 5 else 0)
  min 100 (max 1 s7)

/-- The dict `_parse_script_response` returns. -/
structure ParsedScript where
  script_markdown : String
  word_count : Nat
  estimated_duration_minutes : Int
  seo_title : String
  seo_description : String
  seo_tags : List String
  estimated_quality_score : Int
  deriving Repr, DecidableEq

/-- `_parse_script_response`: clean the response, extract the SEO fields,
count words, estimate the duration (`round(wc/150)`, floor 1) and the
quality score. -/
def parse_script_response (response_text user_idea : String)
    (synthesis : PatternSynthesis) : ParsedScript :=
  let clean_text := cleanResponse response_text
  let seo_title := extract_seo_title clean_text user_idea synthesis
  let seo_description := extract_seo_description clean_text user_idea synthesis
  let seo_tags := extract_seo_tags clean_text synthesis
  let word_count := pyWordCount clean_text
  { script_markdown := clean_text
    word_count := word_count
    estimated_duration_minutes := max 1 (roundHalfEven ((word_count : ℚ) / 150))
    seo_title := seo_title
    seo_description := seo_description
    seo_tags := seo_tags
    estimated_quality_score :=
      estimate_quality_score clean_text word_count seo_title seo_tags }

/-- `_create_fallback_script`: the fixed template used when the LLM call
raises, with quality score fixed at 50. -/
def create_fallback_script (user_idea : String) (synthesis : PatternSynthesis)
    (duration_minutes : Int) : GeneratedScript :=
  let target_words := duration_minutes * 150
  let top_hook := match synthesis.top_hooks with
    | h :: _ => h.text.take 150
    | [] => "¡Bienvenidos!"
  let script := "# " ++ user_idea ++ "\n\n## [00:00] HOOK\n" ++ top_hook ++
    "\n\n## [00:15] INTRODUCCIÓN\nEn este video vamos a explorar " ++ user_idea ++
    ".\n\n## [01:00] CONTENIDO PRINCIPAL\n[Desarrolla el tema aquí - aproximadamente " ++
    toString target_words ++
    " palabras]\n\n## [XX:XX] CONCLUSIÓN\nEso es todo por hoy. ¡Gracias por ver!\n\n---\n\n**Nota**: Este es un guion básico generado automáticamente.\nBasado en análisis de " ++
    toString synthesis.num_videos_analyzed ++ " videos exitosos.\n"
  { user_idea := user_idea
    script_markdown := script
    estimated_duration_minutes := duration_minutes
    word_count := pyWordCount script
    seo_title := user_idea.take 70
    seo_description := "Video sobre " ++ user_idea
    seo_tags := ["tutorial", "guía", "español"]
    synthesis_used := synthesis.topic
    num_reference_videos := synthesis.num_videos_analyzed
    cost_usd := 0
    estimated_quality_score := 50 }

set_option linter.unusedVariables false in
/-- `ScriptGenerator.generate`: `ValueError` exactly on a blank idea; an
LLM failure falls back to the template; otherwise the response is parsed
into the script record.  `style_preference` only enters the prompt. -/
def generate (synthesis : PatternSynthesis) (user_idea : String)
    (duration_minutes : Int) (style_preference : Option String)
    (llm : Except Unit String) : Except PyErr GeneratedScript :=
  if pyStrip user_idea = "" then .error .valueError
  else
    match llm with
    | .error _ => .ok (create_fallback_script user_idea synthesis duration_minutes)
    | .ok text =>
      let d := parse_script_response (pyStrip text) user_idea synthesis
      .ok { user_idea := user_idea
            script_markdown := d.script_markdown
            estimated_duration_minutes := d.estimated_duration_minutes
            word_count := d.word_count
            seo_title := d.seo_title
            seo_description := d.seo_description
            seo_tags := d.seo_tags
            synthesis_used := synthesis.topic
            num_reference_videos := synthesis.num_videos_analyzed
            cost_usd := 0
            estimated_quality_score := d.estimated_quality_score }

/-! ## Script-generator theorems (C8) -/

/-- The quality estimate exactly as the claim words it: base 50; +20 if
word count in [500,2000], +10 in [300,500) or (2000,3000]; +5 for
timestamp presence, +5 for section markers, +5 if section count in
[3,7]; +5 each for SEO title length ≥ 20, tag count ≥ 10, tag count
≥ 15; clamped to [1,100]. -/
def specQualityScore (script_text : String) (word_count : Nat)
    (seo_title : String) (seo_tags : List String) : Int :=
  min 100 (max 1 (50 +
    (if 500 ≤ word_count ∧ word_count ≤ 2000 then 20
     else if (300 ≤ word_count ∧ word_count < 500) ∨
         (2000 < word_count ∧ word_count ≤ 3000) then 10
     else 0) +
    (if pyIn "[00:00]" script_text || pyIn "[0:00]" script_text then 5 else 0) +
    (if pyIn "##" script_text then 5 else 0) +
    (if 3 ≤ pyCount script_text "##" ∧ pyCount script_text "##" ≤ 7 then 5 else 0) +
    (if 20 ≤ seo_title.length then 5 else 0) +
    (if 10 ≤ seo_tags.length then 5 else 0) +
    (if 15 ≤ seo_tags.length then 5 else 0)))

theorem estimate_eq_spec (s : String) (wc : Nat) (t : String) (tags : List String) :
    estimate_quality_score s wc t tags = specQualityScore s wc t tags := by
  unfold estimate_quality_score specQualityScore
  have htitle : (if t ≠ "" ∧ 20 ≤ t.length then (5 : Int) else 0) =
      (if 20 ≤ t.length then 5 else 0) := by
    by_cases h : 20 ≤ t.length
    · rw [if_pos h, if_pos]
      refine ⟨?_, h⟩
      intro he
      rw [he] at h
      simp at h
    · rw [if_neg h, if_neg (fun hc => h hc.2)]
  rw [htitle]

/-- C8: `generate` fails with the precondition `ValueError` exactly when
`user_idea` is empty or blank; and whenever a script record is produced
from a parsed LLM response, its estimated quality score equals the
deterministic claimed formula of its own script text, word count, SEO
title and tags. -/
theorem c8_generate_blank_guard_and_quality_formula :
    (∀ (synthesis : PatternSynthesis) (user_idea : String) (dm : Int)
        (style : Option String) (llm : Except Unit String) (e : PyErr),
      generate synthesis user_idea dm style llm = .error e ↔
        (pyStrip user_idea = "" ∧ e = .valueError)) ∧
    (∀ (synthesis : PatternSynthesis) (user_idea : String) (dm : Int)
        (style : Option String) (text : String) (s : GeneratedScript),
      generate synthesis user_idea dm style (.ok text) = .ok s →
      s.estimated_quality_score =
        specQualityScore s.script_markdown s.word_count s.seo_title s.seo_tags) := by
  constructor
  · intro synthesis user_idea dm style llm e
    constructor
    · intro h
      unfold generate at h
      split at h
      · rw [Except.error.injEq] at h
        exact ⟨by assumption, h.symm⟩
      · cases llm with
        | error u => exact absurd h (by simp)
        | ok text => exact absurd h (by simp)
    · rintro ⟨hblank, rfl⟩
      unfold generate
      rw [if_pos hblank]
  · intro synthesis user_idea dm style text s h
    unfold generate at h
    split at h
    · exact absurd h (by simp)
    · rw [Except.ok.injEq] at h
      subst h
      dsimp only
      unfold parse_script_response
      dsimp only
      exact estimate_eq_spec _ _ _ _

/-- An empty synthesis record for the C8 witness runs. -/
def emptySynthesis : PatternSynthesis :=
  { topic := "t", num_videos_analyzed := 0, top_hooks := []
    optimal_structure := { hook_duration_avg := 15, intro_end_avg := 60
                           num_sections_mode := 3, conclusion_start_avg := 0
                           total_videos := 0 }
    effective_ctas := []
    key_vocabulary := { technical_terms := [], common_phrases := []
                        transition_phrases := [] }
    notable_techniques := [], seo_patterns := { title_keywords := [], estimated_tags := [] }
    average_effectiveness := 0, markdown_report := "" }

/-- The record `generate` produces for the idea `"idea"` and the LLM
response `"hola mundo"` against the empty synthesis. -/
def sampleGenScript : GeneratedScript :=
  { user_idea := "idea", script_markdown := "hola mundo"
    estimated_duration_minutes := 1, word_count := 2, seo_title := "idea"
    seo_description := "Video sobre idea. Basado en análisis de 0 videos exitosos."
    seo_tags := [], synthesis_used := "t", num_reference_videos := 0
    cost_usd := 0, estimated_quality_score := 50 }

set_option maxRecDepth 4000 in
theorem generate_sample_eval :
    generate emptySynthesis "idea" 10 none (.ok "hola mundo") = .ok sampleGenScript := by
  have hrf : ratFloor ((2 : ℚ) / 150) = 0 := by
    rw [ratFloor_eq]
    norm_num
  have hdur : roundHalfEven ((2 : ℚ) / 150) = 0 :=
    (roundHalfEven_of_lt (by rw [hrf]; norm_num)).trans hrf
  unfold generate
  rw [if_neg (by decide)]
  dsimp only
  unfold parse_script_response
  dsimp only
  rw [Except.ok.injEq]
  have hclean : cleanResponse (pyStrip "hola mundo") = "hola mundo" := by decide
  rw [hclean]
  have hwc : pyWordCount "hola mundo" = 2 := by decide
  rw [hwc]
  rw [show ((2 : Nat) : ℚ) = (2 : ℚ) by norm_num, hdur]
  unfold sampleGenScript
  rw [GeneratedScript.mk.injEq]
  refine ⟨rfl, rfl, by decide, rfl, by decide, by decide, by decide, rfl, rfl, rfl,
    by decide⟩

/-- C8 witness: the blank-guard direction at a whitespace idea, and the
quality-formula direction at the concrete successful run above. -/
theorem c8_witness :
    generate emptySynthesis "   " 10 none (.ok "x") = .error .valueError ∧
    sampleGenScript.estimated_quality_score =
      specQualityScore sampleGenScript.script_markdown sampleGenScript.word_count
        sampleGenScript.seo_title sampleGenScript.seo_tags :=
  ⟨(c8_generate_blank_guard_and_quality_formula.1 emptySynthesis "   " 10 none
      (.ok "x") .valueError).mpr ⟨by decide, rfl⟩,
   c8_generate_blank_guard_and_quality_formula.2 emptySynthesis "idea" 10 none
     "hola mundo" sampleGenScript generate_sample_eval⟩

end YtSummarizer
